import Mathlib

/-!
# SpecScore: shallow embedding of the criteria-evaluation engine

This file embeds the scoring core of the SpecScore CLI (the seven criteria
evaluators in `src/lib/evaluators.ts` and the aggregator in
`src/lib/reporter.ts`) and proves or refutes the frozen claims about it.

Modelling conventions:
* JavaScript numbers appearing in scores are modelled as `Option ℚ` / `Option ℤ`
  where `none` stands for `NaN` (the only NaN source in the engine is the
  unguarded division `wellNamedPaths / pathCount` in `scorePathsAndOperations`
  when the paths object is present but empty); every arithmetic operation and
  comparison propagates or absorbs `none` exactly the way JS treats `NaN`.
* `Math.round` is `fun q => ⌊q + 1/2⌋` (round half towards +∞), which agrees
  with JS on every finite number.
* JS objects are modelled as association lists in insertion order; `Set` sizes
  become lengths after `eraseDups`.
* JS truthiness is modelled field by field: an optional string field is truthy
  iff present and non-empty; an optional object or array field is truthy iff
  present (empty objects and arrays are truthy in JS).
-/

namespace SpecScore

/-- Models `Math.round` on a finite JS number: round half towards positive infinity. -/
def jsRound (q : ℚ) : ℤ := ⌊q + 1/2⌋

/-- Addition of JS numbers where `none` models `NaN` (`NaN` propagates). -/
def jsAdd : Option ℤ → Option ℤ → Option ℤ
  | some a, some b => some (a + b)
  | _, _ => none

/-- JS comparison `x >= k` where `none` models `NaN` (every comparison with
`NaN` is false). -/
def jsGe : Option ℤ → ℤ → Bool
  | none, _ => false
  | some v, k => k ≤ v

/-- JS comparison `x < k` where `none` models `NaN`. -/
def jsLt : Option ℤ → ℤ → Bool
  | none, _ => false
  | some v, k => v < k

/-- JS truthiness of an optional string field: present and non-empty. -/
def strTruthy : Option String → Bool
  | none => false
  | some s => !s.isEmpty

/-- A media type object (`content` map entry); only the presence/truthiness of
`schema`, `example` and `examples` matters to the engine. -/
structure MediaTypeObject where
  schemaPresent : Bool
  exampleTruthy : Bool
  examplesTruthy : Bool
deriving DecidableEq

/-- A request body object; `content = none` models an object without a
`content` key (e.g. a `$ref` object), matching the `'content' in requestBody`
checks. -/
structure RequestBodyObject where
  content : Option (List (String × MediaTypeObject))
deriving DecidableEq

/-- A response object keyed by status code. `description = none` models a
missing key, `content = none` a missing `content` key. -/
structure ResponseObject where
  description : Option String
  content : Option (List (String × MediaTypeObject))
deriving DecidableEq

/-- A parameter object; only its optional `description` matters. -/
structure ParameterObject where
  description : Option String
deriving DecidableEq

/-- An operation (one HTTP-method handler). `security = none` models an absent
per-operation security override; `some []` an explicitly empty one (truthy in
JS, since arrays are objects). -/
structure Operation where
  description : Option String
  tags : Option (List String)
  parameters : Option (List ParameterObject)
  requestBody : Option RequestBodyObject
  responses : List (String × ResponseObject)
  security : Option (List Unit)
deriving DecidableEq

/-- A path item with its eight optional operations and optional description. -/
structure PathItem where
  description : Option String
  get : Option Operation
  post : Option Operation
  put : Option Operation
  patch : Option Operation
  delete : Option Operation
  options : Option Operation
  head : Option Operation
  trace : Option Operation
deriving DecidableEq

/-- A named schema in `components.schemas`. `type = none` models a schema value
without a `type` key (covers `$ref` objects and null entries, which the
evaluator skips via its `'type' in schema` guard); `properties` records the
declared property names (`some []` is an empty-but-present map, truthy in JS);
`additionalPropertiesTruthy` is the JS truthiness of `additionalProperties`. -/
structure SchemaObject where
  type : Option String
  properties : Option (List String)
  additionalPropertiesTruthy : Bool
deriving DecidableEq

/-- The components bag; for categories other than `schemas` only the key sets
matter, so they are kept as name lists. -/
structure Components where
  schemas : Option (List (String × SchemaObject))
  securitySchemes : Option (List String)
  responses : Option (List String)
  parameters : Option (List String)
  examples : Option (List String)
  requestBodies : Option (List String)
  headers : Option (List String)
deriving DecidableEq

/-- The `info` object. -/
structure Info where
  title : String
  version : String
  description : Option String
deriving DecidableEq

/-- The document tree consumed by the engine. `paths` entries may carry `none`
path items (YAML `path:` with no body parses to null, skipped by the
`if (pathItem)` guards but still counted as a key). -/
structure Document where
  info : Info
  servers : Option (List Unit)
  security : Option (List Unit)
  paths : Option (List (String × Option PathItem))
  components : Option Components
  externalDocs : Bool
deriving DecidableEq

/-- One criterion result. `score`/`percentage` are `none` when the JS value is
`NaN`. -/
structure CriteriaScore where
  name : String
  score : Option ℤ
  maxScore : ℤ
  percentage : Option ℤ
  feedback : List String
  suggestions : List String
deriving DecidableEq

/-! ## Tree accessors -/

/-- The five methods scanned by most evaluators, in source order. -/
def ops5 (pi : PathItem) : List Operation :=
  [pi.get, pi.post, pi.put, pi.patch, pi.delete].filterMap id

/-- The eight methods scanned by the descriptions evaluator, in source order
(`get, post, put, patch, delete, options, head, trace`). -/
def ops8 (pi : PathItem) : List Operation :=
  [pi.get, pi.post, pi.put, pi.patch, pi.delete,
   pi.options, pi.head, pi.trace].filterMap id

/-- The method names among `get/post/put/patch/delete` present on a path item
(the `Object.keys(pathItem).filter(...)` in `scorePathsAndOperations`). -/
def presentMethods5 (pi : PathItem) : List String :=
  [("get", pi.get), ("post", pi.post),
   ("put", pi.put), ("patch", pi.patch),
   ("delete", pi.delete)].filterMap
    (fun m => if m.2.isSome then some m.1 else none)

/-- The paths entries, or `[]` when `paths` is absent. -/
def Document.pathEntries (d : Document) : List (String × Option PathItem) :=
  d.paths.getD []

/-- All operations over the five methods, across non-null path items, in
document order (the nested `forEach` loops of the evaluators). -/
def docOps5 (d : Document) : List Operation :=
  d.pathEntries.flatMap (fun e => (e.2.map ops5).getD [])

/-- All operations over the eight methods, across non-null path items. -/
def docOps8 (d : Document) : List Operation :=
  d.pathEntries.flatMap (fun e => (e.2.map ops8).getD [])

/-! ## Schema & Types (max 20) — `Evaluators.scoreSchemaAndTypes` -/

/-- Embeds `document.components?.schemas || {}` as an entry list. -/
def schemaEntries (d : Document) : List (String × SchemaObject) :=
  (d.components.bind (·.schemas)).getD []

/-- The predicate counted as `properlyTypedSchemas`: the schema value has a
`type` key equal to `'object'` and a truthy `properties` (present, possibly
empty — `{}` is truthy in JS). -/
def isProperlyTyped (s : SchemaObject) : Bool :=
  s.type == some ("object") && s.properties.isSome

/-- The predicate counted as `freeFormObjects`. -/
def isFreeForm (s : SchemaObject) : Bool :=
  s.type == some ("object") && s.properties.isNone
    && !s.additionalPropertiesTruthy

def properlyTypedSchemas (d : Document) : ℕ :=
  (schemaEntries d).countP (fun e => isProperlyTyped e.2)

def freeFormObjects (d : Document) : ℕ :=
  (schemaEntries d).countP (fun e => isFreeForm e.2)

/-- Schema usages contributed by one operation: each request-body media type
carrying a schema plus each response media type carrying a schema. -/
def opSchemaUsages (op : Operation) : ℕ :=
  (match op.requestBody with
   | some rb => (rb.content.getD []).countP (fun mt => mt.2.schemaPresent)
   | none => 0)
  + (op.responses.foldl
      (fun n r => n + (r.2.content.getD []).countP (fun mt => mt.2.schemaPresent)) 0)

/-- Counter `operationsWithSchemas` accumulated over all five-method operations. -/
def operationsWithSchemas (d : Document) : ℕ :=
  (docOps5 d).foldl (fun n op => n + opSchemaUsages op) 0

/-- Counter `totalOperations` in `scoreSchemaAndTypes` (five methods). -/
def totalOperations5 (d : Document) : ℕ := (docOps5 d).length

/-- The properly-typed additive term (0 when `properlyTypedSchemas == 0`). -/
def properlyTypedTerm (d : Document) : ℚ :=
  if 0 < properlyTypedSchemas d then
    min 10 ((properlyTypedSchemas d : ℚ) / (max (schemaEntries d).length 1 : ℕ) * 10)
  else 0

/-- The schema-usage additive term (0 when there are no operations). -/
def schemaUsageTerm (d : Document) : ℚ :=
  if 0 < totalOperations5 d then
    min 5 ((operationsWithSchemas d : ℚ) / ((totalOperations5 d : ℚ) * 2) * 5)
  else 0

/-- The raw (pre-rounding) Schema & Types score. -/
def schemaAndTypesRaw (d : Document) : ℚ :=
  (if 0 < (schemaEntries d).length then 5 else 0)
  + properlyTypedTerm d + schemaUsageTerm d

/-- Embeds `Evaluators.scoreSchemaAndTypes`. -/
def scoreSchemaAndTypes (d : Document) : CriteriaScore :=
  let schemaCount := (schemaEntries d).length
  let raw := schemaAndTypesRaw d
  let feedback :=
    (if 0 < schemaCount then
      ["Found " ++ toString schemaCount ++ " schema definitions"]
     else ["No schema definitions found"])
    ++ (if 0 < properlyTypedSchemas d then
          [toString (properlyTypedSchemas d) ++ " schemas have proper type definitions"]
        else [])
    ++ (if 0 < freeFormObjects d then
          [toString (freeFormObjects d) ++ " schemas are free-form objects without properties"]
        else [])
    ++ (if 0 < totalOperations5 d then
          [toString (jsRound ((operationsWithSchemas d : ℚ) / ((totalOperations5 d : ℚ) * 2) * 100))
            ++ "% of operations use proper schemas"]
        else [])
  let suggestions :=
    (if 0 < schemaCount then [] else ["Define reusable schemas in components.schemas"])
    ++ (if 0 < freeFormObjects d then
          ["Define specific properties for object schemas instead of using free-form objects"]
        else [])
    ++ (if raw < 20 * (1/2 : ℚ) then
          ["Increase use of strongly-typed schemas throughout the API"]
        else [])
  { name := "Schema & Types"
    score := some (jsRound raw)
    maxScore := 20
    percentage := some (jsRound (raw / 20 * 100))
    feedback := feedback
    suggestions := suggestions }

/-! ## Descriptions & Documentation (max 20) — `Evaluators.scoreDescriptions` -/

/-- Operation-description condition: truthy and length > 5. -/
def opHasDescription (op : Operation) : Bool :=
  match op.description with
  | some s => 5 < s.length
  | none => false

/-- All parameters across the eight-method operations, in document order. -/
def allParams8 (d : Document) : List ParameterObject :=
  (docOps8 d).flatMap (fun op => op.parameters.getD [])

/-- All response entries across the eight-method operations. -/
def allResponses8 (d : Document) : List (String × ResponseObject) :=
  (docOps8 d).flatMap (fun op => op.responses)

def operationsWithDescriptions (d : Document) : ℕ :=
  (docOps8 d).countP opHasDescription

def parametersWithDescriptions (d : Document) : ℕ :=
  (allParams8 d).countP (fun p => strTruthy p.description)

def responsesWithDescriptions (d : Document) : ℕ :=
  (allResponses8 d).countP (fun r => strTruthy r.2.description)

def pathsWithDescriptions (d : Document) : ℕ :=
  d.pathEntries.countP (fun e => match e.2 with
    | some pi => strTruthy pi.description
    | none => false)

/-- The raw (pre-rounding) Descriptions & Documentation score. -/
def descriptionsRaw (d : Document) : ℚ :=
  (if strTruthy d.info.description
      && (match d.info.description with | some s => decide (10 < s.length) | none => false)
   then 3 else 0)
  + (if 0 < (docOps8 d).length then
      (operationsWithDescriptions d : ℚ) / (docOps8 d).length * 8 else 0)
  + (if 0 < (allParams8 d).length then
      (parametersWithDescriptions d : ℚ) / (allParams8 d).length * 4 else 0)
  + (if 0 < (allResponses8 d).length then
      (responsesWithDescriptions d : ℚ) / (allResponses8 d).length * 3 else 0)
  + (if 0 < d.pathEntries.length then
      (pathsWithDescriptions d : ℚ) / d.pathEntries.length * 2 else 0)

/-- Embeds `Evaluators.scoreDescriptions`. -/
def scoreDescriptions (d : Document) : CriteriaScore :=
  let raw := descriptionsRaw d
  let feedback :=
    (if strTruthy d.info.description
        && (match d.info.description with | some s => decide (10 < s.length) | none => false)
     then ["API has a meaningful description"] else [])
    ++ (if 0 < (docOps8 d).length then
          [toString (operationsWithDescriptions d) ++ "/" ++ toString (docOps8 d).length
            ++ " operations have descriptions"] else [])
    ++ (if 0 < (allParams8 d).length then
          [toString (parametersWithDescriptions d) ++ "/" ++ toString (allParams8 d).length
            ++ " parameters have descriptions"] else [])
    ++ (if 0 < (allResponses8 d).length then
          [toString (responsesWithDescriptions d) ++ "/" ++ toString (allResponses8 d).length
            ++ " responses have descriptions"] else [])
  let suggestions :=
    (if strTruthy d.info.description
        && (match d.info.description with | some s => decide (10 < s.length) | none => false)
     then [] else ["Add a comprehensive description to the API info object"])
    ++ (if raw < 20 * (7/10 : ℚ) then
          ["Add descriptions to all operations, parameters, and responses",
           "Use meaningful descriptions that explain the purpose and behavior"]
        else [])
  { name := "Descriptions & Documentation"
    score := some (jsRound raw)
    maxScore := 20
    percentage := some (jsRound (raw / 20 * 100))
    feedback := feedback
    suggestions := suggestions }

/-! ## Paths & Operations (max 15) — `Evaluators.scorePathsAndOperations` -/

/-- Left brace character. -/
def lbrace : Char := '\x7b'

/-- Right brace character. -/
def rbrace : Char := '\x7d'

/-- ASCII lowercase letter (the JS regex class `a-z`). -/
def isLowerAscii (c : Char) : Bool := 'a' ≤ c && c ≤ 'z'

/-- ASCII digit (the JS regex class `0-9`). -/
def isDigitAscii (c : Char) : Bool := '0' ≤ c && c ≤ '9'

/-- ASCII uppercase letter (the JS regex `[A-Z]`). -/
def isUpperAscii (c : Char) : Bool := 'A' ≤ c && c ≤ 'Z'

/-- The JS regex test `^[a-z0-9-]+$`. -/
def matchesKebab (s : String) : Bool :=
  !s.isEmpty && s.data.all (fun c => isLowerAscii c || isDigitAscii c || c == '-')

/-- Models `str.split(sep)` for a single-character separator, structurally on the
character list (e.g. `"/a/".split('/') = ["", "a", ""]`). -/
def splitChar (sep : Char) : List Char → List (List Char)
  | [] => [[]]
  | c :: cs =>
    if c = sep then [] :: splitChar sep cs
    else match splitChar sep cs with
      | [] => [[c]]
      | g :: gs => (c :: g) :: gs

/-- Models `s.startsWith(c)` for a single-character prefix. -/
def startsWithChar (s : String) (c : Char) : Bool :=
  match s.data with
  | [] => false
  | x :: _ => x == c

/-- The non-parameter segments of a path:
`path.split('/').filter(s => s && !s.startsWith('{'))`. -/
def pathSegments (path : String) : List String :=
  ((splitChar '/' path.data).map String.mk).filter
    (fun s => !s.isEmpty && !(startsWithChar s lbrace))

/-- A segment trips the bad-naming check (underscore, uppercase, or failing
`^[a-z0-9-]+$`). -/
def segmentFlagged (s : String) : Bool :=
  s.data.contains '_' || s.data.any isUpperAscii || !matchesKebab s

/-- A path is well-named when no remaining segment is flagged. -/
def isWellNamed (path : String) : Bool :=
  (pathSegments path).all (fun s => !segmentFlagged s)

/-- Split a character list at the first right brace: `some (before, after)`,
or `none` when there is no right brace. -/
def splitAtRBrace : List Char → Option (List Char × List Char)
  | [] => none
  | c :: cs =>
    if c = rbrace then some ([], cs)
    else match splitAtRBrace cs with
      | some (pre, post) => some (c :: pre, post)
      | none => none

/-- One pass of the JS global replace `path.replace(/\x7b[^\x7d]+\x7d/g, '{id}')`
on the character list: each `{...}` group with a non-empty body becomes `{id}`;
an immediately-closed `{` or an unclosed `{` is copied verbatim. The fuel
argument (instantiated with the list length, which never runs out, since the
scanner always advances) makes the recursion structural. -/
def normChars (fuel : ℕ) : List Char → List Char
  | [] => []
  | c :: cs =>
    match fuel with
    | 0 => c :: cs
    | fuel + 1 =>
      if c = lbrace then
        match splitAtRBrace cs with
        | some (pre, post) =>
          if pre.isEmpty then c :: normChars fuel cs
          else lbrace :: 'i' :: 'd' :: rbrace :: normChars fuel post
        | none => c :: normChars fuel cs
      else c :: normChars fuel cs

/-- Models `path.replace(/\x7b[^\x7d]+\x7d/g, '{id}')`. -/
def normalizePath (path : String) : String :=
  String.mk (normChars path.data.length path.data)

/-- Counter `wellNamedPaths`: count of well-named path strings. -/
def wellNamedPaths (entries : List (String × Option PathItem)) : ℕ :=
  (entries.map (·.1)).countP isWellNamed

/-- Counter `crudPaths`: paths whose (non-null) path item has at least one of the five
methods and has both `get` and `post`. -/
def crudPaths (entries : List (String × Option PathItem)) : ℕ :=
  entries.countP (fun e => match e.2 with
    | some pi =>
      !(presentMethods5 pi).isEmpty
        && (presentMethods5 pi).contains "get" && (presentMethods5 pi).contains "post"
    | none => false)

/-- The normalized patterns inserted into the `pathPatterns` set: one per path
whose (non-null) path item has at least one of the five methods, in order,
deduplicated (first occurrences kept; only the size of the set is used). -/
def pathPatterns (entries : List (String × Option PathItem)) : List String :=
  ((entries.filter (fun e => match e.2 with
      | some pi => !(presentMethods5 pi).isEmpty
      | none => false)).map (fun e => normalizePath e.1)).eraseDups

/-- Models `paths.length - pathPatterns.size` (a JS number; here ℕ subtraction is
exact because the pattern set cannot be larger than the path list). -/
def overlappingPaths (entries : List (String × Option PathItem)) : ℕ :=
  entries.length - (pathPatterns entries).length

/-- Raw Paths & Operations score. `none` models the JS `NaN` produced by
`(wellNamedPaths / pathCount) * 7` when `paths` is present but has no keys
(`0/0 = NaN`, which then propagates through every later addition). The
`paths`-absent case is scored 0 by the early return. -/
def pathsAndOperationsRaw (d : Document) : Option ℚ :=
  match d.paths with
  | none => some 0
  | some entries =>
    if entries.length = 0 then none
    else some (
      (wellNamedPaths entries : ℚ) / entries.length * 7
      + (if 0 < crudPaths entries then min 5 ((crudPaths entries : ℚ) * 2) else 0)
      + (if overlappingPaths entries = 0 then 3 else 0))

/-- Embeds `Evaluators.scorePathsAndOperations`. -/
def scorePathsAndOperations (d : Document) : CriteriaScore :=
  match d.paths with
  | none =>
    { name := "Paths & Operations"
      score := some 0
      maxScore := 15
      percentage := some 0
      feedback := ["No paths defined"]
      suggestions := ["Define API paths and operations"] }
  | some entries =>
    let raw := pathsAndOperationsRaw d
    let feedback :=
      [toString (wellNamedPaths entries) ++ "/" ++ toString entries.length
        ++ " paths follow RESTful naming conventions"]
      ++ (if 0 < crudPaths entries then
            ["Found " ++ toString (crudPaths entries) ++ " CRUD-pattern endpoints"]
          else [])
      ++ (if overlappingPaths entries = 0 then
            ["No overlapping or redundant paths detected"]
          else
            [toString (overlappingPaths entries) ++ " potentially overlapping paths detected"])
    let suggestions :=
      (if overlappingPaths entries = 0 then []
       else ["Review path structure for redundancy"])
      ++ (if (match raw with
              | some q => decide (q < 15 * (6/10 : ℚ))
              | none => false) then
            ["Use RESTful naming conventions (lowercase, hyphens, nouns)",
             "Implement consistent CRUD operations for resources"]
          else [])
    { name := "Paths & Operations"
      score := raw.map jsRound
      maxScore := 15
      percentage := raw.map (fun q => jsRound (q / 15 * 100))
      feedback := feedback
      suggestions := suggestions }

/-! ## Response Codes (max 15) — `Evaluators.scoreResponseCodes` -/

def opCodes (op : Operation) : List String := op.responses.map (·.1)

def opHasSuccess (op : Operation) : Bool :=
  (opCodes op).any (fun code => startsWithChar code '2')

def opHasError (op : Operation) : Bool :=
  (opCodes op).any (fun code => startsWithChar code '4' || startsWithChar code '5')

def opHasMultiple (op : Operation) : Bool := 1 < (opCodes op).length

def operationsWithSuccess (d : Document) : ℕ := (docOps5 d).countP opHasSuccess

def operationsWithErrors (d : Document) : ℕ := (docOps5 d).countP opHasError

def operationsWithMultipleResponses (d : Document) : ℕ :=
  (docOps5 d).countP opHasMultiple

/-- The union of all status-code keys (as a list; only membership is used). -/
def statusCodesUsed (d : Document) : List String := (docOps5 d).flatMap opCodes

def appropriateSuccessCodes : List String := ["200", "201", "202", "204"]

def appropriateErrorCodes : List String :=
  ["400", "401", "403", "404", "409", "422", "500"]

/-- Raw Response Codes score (guarded by `totalOperations > 0`, so no division
by zero is possible). -/
def responseCodesRaw (d : Document) : ℚ :=
  if 0 < (docOps5 d).length then
    (operationsWithSuccess d : ℚ) / (docOps5 d).length * 6
    + (operationsWithErrors d : ℚ) / (docOps5 d).length * 6
    + (operationsWithMultipleResponses d : ℚ) / (docOps5 d).length * 3
  else 0

/-- Embeds `Evaluators.scoreResponseCodes`. -/
def scoreResponseCodes (d : Document) : CriteriaScore :=
  match d.paths with
  | none =>
    { name := "Response Codes"
      score := some 0
      maxScore := 15
      percentage := some 0
      feedback := ["No paths defined"]
      suggestions := ["Define API operations with proper response codes"] }
  | some _ =>
    let raw := responseCodesRaw d
    let total := (docOps5 d).length
    let hasAppropriateSuccess :=
      appropriateSuccessCodes.any (fun code => (statusCodesUsed d).contains code)
    let hasAppropriateErrors :=
      appropriateErrorCodes.any (fun code => (statusCodesUsed d).contains code)
    let feedback :=
      (if 0 < total then
        [toString (operationsWithSuccess d) ++ "/" ++ toString total
          ++ " operations define success responses",
         toString (operationsWithErrors d) ++ "/" ++ toString total
          ++ " operations define error responses",
         toString (operationsWithMultipleResponses d) ++ "/" ++ toString total
          ++ " operations define multiple response codes"]
       else [])
      ++ (if hasAppropriateSuccess && hasAppropriateErrors then
            ["Uses appropriate HTTP status codes"]
          else [])
    let suggestions :=
      (if hasAppropriateSuccess && hasAppropriateErrors then []
       else ["Use standard HTTP status codes (200, 201, 400, 404, 500, etc.)"])
      ++ (if raw < 15 * (1/2 : ℚ) then
            ["Define both success and error responses for all operations",
             "Use specific status codes rather than just 200 and 500"]
          else [])
    { name := "Response Codes"
      score := some (jsRound raw)
      maxScore := 15
      percentage := some (jsRound (raw / 15 * 100))
      feedback := feedback
      suggestions := suggestions }

/-! ## Examples & Samples (max 10) — `Evaluators.scoreExamples` -/

/-- An operation has a counted request body iff `requestBody` is present (as an
object) with a `content` key. -/
def opHasBody (op : Operation) : Bool :=
  match op.requestBody with
  | some rb => rb.content.isSome
  | none => false

/-- At least one request-body media type carries a (truthy) `example` or
`examples`. -/
def opHasRequestExample (op : Operation) : Bool :=
  match op.requestBody with
  | some rb => (rb.content.getD []).any
      (fun mt => mt.2.exampleTruthy || mt.2.examplesTruthy)
  | none => false

/-- The operations (five methods) that have a counted request body. -/
def opsWithBodies (d : Document) : List Operation := (docOps5 d).filter opHasBody

/-- The response entries (five methods) that have a `content` key. -/
def responsesWithContent (d : Document) : List (String × ResponseObject) :=
  ((docOps5 d).flatMap (fun op => op.responses)).filter (fun r => r.2.content.isSome)

def operationsWithRequestExamples (d : Document) : ℕ :=
  (opsWithBodies d).countP opHasRequestExample

def responsesWithExamples (d : Document) : ℕ :=
  (responsesWithContent d).countP (fun r =>
    (r.2.content.getD []).any (fun mt => mt.2.exampleTruthy || mt.2.examplesTruthy))

/-- Raw Examples & Samples score. -/
def examplesRaw (d : Document) : ℚ :=
  (if 0 < (opsWithBodies d).length then
    (operationsWithRequestExamples d : ℚ) / (opsWithBodies d).length * 5 else 0)
  + (if 0 < (responsesWithContent d).length then
      (responsesWithExamples d : ℚ) / (responsesWithContent d).length * 5 else 0)

/-- Embeds `Evaluators.scoreExamples`. -/
def scoreExamples (d : Document) : CriteriaScore :=
  match d.paths with
  | none =>
    { name := "Examples & Samples"
      score := some 0
      maxScore := 10
      percentage := some 0
      feedback := ["No paths defined"]
      suggestions := ["Add request and response examples"] }
  | some _ =>
    let raw := examplesRaw d
    let feedback :=
      (if 0 < (opsWithBodies d).length then
        [toString (operationsWithRequestExamples d) ++ "/"
          ++ toString (opsWithBodies d).length ++ " request bodies have examples"]
       else [])
      ++ (if 0 < (responsesWithContent d).length then
            [toString (responsesWithExamples d) ++ "/"
              ++ toString (responsesWithContent d).length ++ " responses have examples"]
          else [])
    let suggestions :=
      if raw < 10 * (3/10 : ℚ) then
        ["Add examples to request bodies and response content",
         "Examples help developers understand expected data formats"]
      else []
    { name := "Examples & Samples"
      score := some (jsRound raw)
      maxScore := 10
      percentage := some (jsRound (raw / 10 * 100))
      feedback := feedback
      suggestions := suggestions }

/-! ## Security (max 10) — `Evaluators.scoreSecurity` -/

/-- Embeds the `document.components?.securitySchemes || {}` key count. -/
def securitySchemeCount (d : Document) : ℕ :=
  ((d.components.bind (·.securitySchemes)).getD []).length

/-- The per-operation override counts whenever the `security` field is present
— including an explicitly empty list, which is truthy in JS. -/
def hasSecurityOverride (op : Operation) : Bool := op.security.isSome

def operationsWithSecurity (d : Document) : ℕ :=
  (docOps5 d).countP hasSecurityOverride

/-- Raw Security score. -/
def securityRaw (d : Document) : ℚ :=
  (if 0 < securitySchemeCount d then min 5 ((securitySchemeCount d : ℚ) * 2) else 0)
  + (if (match d.security with | some l => decide (0 < l.length) | none => false) then 3 else 0)
  + (if 0 < (docOps5 d).length ∧ 0 < operationsWithSecurity d then
      (operationsWithSecurity d : ℚ) / (docOps5 d).length * 2 else 0)

/-- Embeds `Evaluators.scoreSecurity`. -/
def scoreSecurity (d : Document) : CriteriaScore :=
  let raw := securityRaw d
  let feedback :=
    (if 0 < securitySchemeCount d then
      ["Found " ++ toString (securitySchemeCount d) ++ " security scheme(s) defined"]
     else [])
    ++ (if (match d.security with | some l => decide (0 < l.length) | none => false) then
          ["Global security requirements defined"]
        else [])
    ++ (if 0 < (docOps5 d).length ∧ 0 < operationsWithSecurity d then
          [toString (operationsWithSecurity d) ++ "/" ++ toString (docOps5 d).length
            ++ " operations have specific security requirements"]
        else [])
  let suggestions :=
    (if 0 < securitySchemeCount d then []
     else ["Define security schemes in components.securitySchemes"])
    ++ (if raw = 0 then
          ["Implement authentication and authorization schemes",
           "Consider API keys, OAuth2, or JWT tokens"]
        else [])
  { name := "Security"
    score := some (jsRound raw)
    maxScore := 10
    percentage := some (jsRound (raw / 10 * 100))
    feedback := feedback
    suggestions := suggestions }

/-! ## Best Practices (max 10) — `Evaluators.scoreBestPractices` -/

def opHasTags (op : Operation) : Bool :=
  match op.tags with
  | some l => !l.isEmpty
  | none => false

def operationsWithTags (d : Document) : ℕ := (docOps5 d).countP opHasTags

/-- The six reusable component categories (`securitySchemes` deliberately not
among them), as presence/non-emptiness flags in source order. -/
def componentCategoryFlags (d : Document) : List Bool :=
  match d.components with
  | none => [false, false, false, false, false, false]
  | some c =>
    [(c.schemas.getD []).length, (c.responses.getD []).length,
     (c.parameters.getD []).length, (c.examples.getD []).length,
     (c.requestBodies.getD []).length, (c.headers.getD []).length].map (fun n =>
       decide (0 < n))

/-- Counter `componentsWithContent.length`: how many categories are present and
non-empty. (Presence and non-emptiness coincide here because an absent
category is `none` and `Object.keys` of an empty map has length 0.) -/
def componentsWithContent (d : Document) : ℕ :=
  (componentCategoryFlags d).countP id

/-- Raw Best Practices score. -/
def bestPracticesRaw (d : Document) : ℚ :=
  (if (match d.servers with | some l => decide (0 < l.length) | none => false) then 2 else 0)
  + (if !d.info.version.isEmpty && d.info.version != "1.0.0" then 2 else 0)
  + (if 0 < (docOps5 d).length then
      (operationsWithTags d : ℚ) / (docOps5 d).length * 3 else 0)
  + (if 1 < componentsWithContent d then 2 else 0)
  + (if d.externalDocs then 1 else 0)

/-- Embeds `Evaluators.scoreBestPractices`. -/
def scoreBestPractices (d : Document) : CriteriaScore :=
  let raw := bestPracticesRaw d
  let feedback :=
    (if (match d.servers with | some l => decide (0 < l.length) | none => false) then
      [toString ((d.servers.getD []).length) ++ " server(s) defined"]
     else [])
    ++ (if !d.info.version.isEmpty && d.info.version != "1.0.0" then
          ["API version: " ++ d.info.version]
        else [])
    ++ (if 0 < (docOps5 d).length then
          [toString (operationsWithTags d) ++ "/" ++ toString (docOps5 d).length
            ++ " operations have tags"]
        else [])
    ++ (if 1 < componentsWithContent d then
          ["Uses " ++ toString (componentsWithContent d) ++ " component types for reusability"]
        else [])
    ++ (if d.externalDocs then ["External documentation referenced"] else [])
  let suggestions :=
    (if (match d.servers with | some l => decide (0 < l.length) | none => false) then []
     else ["Define servers array with API base URLs"])
    ++ (if raw < 10 * (4/10 : ℚ) then
          ["Add tags to organize operations",
           "Use components for reusable elements",
           "Define multiple servers for different environments"]
        else [])
  { name := "Best Practices"
    score := some (jsRound raw)
    maxScore := 10
    percentage := some (jsRound (raw / 10 * 100))
    feedback := feedback
    suggestions := suggestions }

/-! ## Aggregator — `OpenAPIScorer` in `src/lib/reporter.ts` (the variant the
CLI imports; the older scorer variant of `generateOverallFeedback`, with
different narrative bands and weak-area threshold, is embedded separately
below as `legacyGenerateOverallFeedback`). -/

/-- The seven criterion results, in invocation order. -/
def criteriaList (d : Document) : List CriteriaScore :=
  [scoreSchemaAndTypes d, scoreDescriptions d, scorePathsAndOperations d,
   scoreResponseCodes d, scoreExamples d, scoreSecurity d, scoreBestPractices d]

/-- Embeds `criteria.reduce((sum, c) => sum + c.score, 0)` with NaN propagation. -/
def totalScore (d : Document) : Option ℤ :=
  (criteriaList d).foldl (fun sum c => jsAdd sum c.score) (some 0)

/-- Embeds `OpenAPIScorer.calculateGrade`. -/
def calculateGrade (score : ℤ) : String :=
  if 80 ≤ score then "A"
  else if 70 ≤ score then "B"
  else if 60 ≤ score then "C"
  else if 50 ≤ score then "D"
  else "F"

/-- Applies `calculateGrade` to a JS number (`NaN` fails every `>=` test, giving F). -/
def calculateGradeOpt : Option ℤ → String
  | none => "F"
  | some s => calculateGrade s

/-- The narrative feedback line selected by total-score band (reporter
variant: 80/70/60/50). -/
def narrativeFeedback (total : Option ℤ) : String :=
  if jsGe total 80 then
    "Excellent! Your OpenAPI specification follows industry best practices."
  else if jsGe total 70 then
    "Good job! Your API specification is well-structured with minor areas for improvement."
  else if jsGe total 60 then
    "Your API specification is decent but has several areas that could be improved."
  else if jsGe total 50 then
    "Your API specification needs significant improvements to meet best practices."
  else
    "Your API specification requires major improvements across multiple areas."

/-- Sort key used by `criteria.sort((a, b) => a.percentage - b.percentage)`;
the comparator is only ever applied to criteria whose percentage is a real
number (the weak-area filter rejects `NaN`). -/
def pctKey (c : CriteriaScore) : ℤ := c.percentage.getD 0

/-- Stable insertion of `c` into a list sorted ascending by `pctKey`: `c` goes
before the first element whose key is not smaller (matching the stable
ascending JS `Array.prototype.sort`). -/
def insertByPct (c : CriteriaScore) : List CriteriaScore → List CriteriaScore
  | [] => [c]
  | d :: ds => if pctKey d < pctKey c then d :: insertByPct c ds else c :: d :: ds

/-- Stable ascending sort by `pctKey`. -/
def sortByPct : List CriteriaScore → List CriteriaScore
  | [] => []
  | c :: cs => insertByPct c (sortByPct cs)

/-- The weak-area selection of the live reporter: percentage `< 50`, sorted
ascending, first three. -/
def weakAreas (criteria : List CriteriaScore) : List CriteriaScore :=
  (sortByPct (criteria.filter (fun c => jsLt c.percentage 50))).take 3

/-- Embeds `OpenAPIScorer.generateOverallFeedback` (reporter variant: narrative bands
80/70/60/50, weak-area threshold `percentage < 50`). -/
def generateOverallFeedback (total : Option ℤ) (criteria : List CriteriaScore) :
    List String :=
  narrativeFeedback total ::
    (if (weakAreas criteria).isEmpty then []
     else ["Focus on improving: "
            ++ String.intercalate ", " ((weakAreas criteria).map (·.name))])

/-- The narrative line of the older scorer variant (bands 90/80/70/60). -/
def legacyNarrativeFeedback (total : Option ℤ) : String :=
  if jsGe total 90 then
    "Excellent! Your OpenAPI specification follows industry best practices."
  else if jsGe total 80 then
    "Good job! Your API specification is well-structured with minor areas for improvement."
  else if jsGe total 70 then
    "Your API specification is decent but has several areas that could be improved."
  else if jsGe total 60 then
    "Your API specification needs significant improvements to meet best practices."
  else
    "Your API specification requires major improvements across multiple areas."

/-- The weak-area selection of the older scorer variant: threshold 60. -/
def legacyWeakAreas (criteria : List CriteriaScore) : List CriteriaScore :=
  (sortByPct (criteria.filter (fun c => jsLt c.percentage 60))).take 3

/-- Embeds the `generateOverallFeedback` of the older, unused scorer file (narrative
bands 90/80/70/60, weak-area threshold `percentage < 60`). -/
def legacyGenerateOverallFeedback (total : Option ℤ)
    (criteria : List CriteriaScore) : List String :=
  legacyNarrativeFeedback total ::
    (if (legacyWeakAreas criteria).isEmpty then []
     else ["Focus on improving: "
            ++ String.intercalate ", " ((legacyWeakAreas criteria).map (·.name))])

/-- The scoring result assembled by `OpenAPIScorer.scoreSpec` (document field
omitted: it is returned unchanged). -/
structure ScoringResult where
  totalScore : Option ℤ
  grade : String
  criteria : List CriteriaScore
  feedback : List String
deriving DecidableEq

/-- The pure core of `OpenAPIScorer.scoreSpec` after parsing. -/
def scoreDocument (d : Document) : ScoringResult :=
  { totalScore := totalScore d
    grade := calculateGradeOpt (totalScore d)
    criteria := criteriaList d
    feedback := generateOverallFeedback (totalScore d) (criteriaList d) }

/-! ## Concrete documents used by the claims -/

/-- An operation with nothing but a single `"200"` response carrying only a
description. -/
def minimalGetOp : Operation :=
  { description := none
    tags := none
    parameters := none
    requestBody := none
    responses := [("200", { description := some ("Success"), content := none })]
    security := none }

/-- A path item with no fields at all. -/
def emptyPathItem : PathItem :=
  { description := none, get := none, post := none, put := none, patch := none
    delete := none, options := none, head := none, trace := none }

/-- The "Minimal API" document of the end-to-end property: one path `/test`
with only a `get` whose sole response is `"200"` with a description and no
schema, no examples, no security, no tags, version `"1.0.0"`, no servers. -/
def docMinimal : Document :=
  { info := { title := "Minimal API", version := "1.0.0", description := none }
    servers := none
    security := none
    paths := some [("/test", some { emptyPathItem with get := some minimalGetOp })]
    components := none
    externalDocs := false }

/-- A document whose `paths` object is present but empty (`paths: {}` — truthy
in JS, so the early returns do not fire). -/
def docEmptyPaths : Document :=
  { docMinimal with paths := some [] }

/-- A document with no `paths` key at all. -/
def docNoPaths : Document :=
  { docMinimal with paths := none }

/-- Four named schemas: three of type `object` with a (non-empty) `properties`
map, one of type `string`; no paths. Gives the raw Schema & Types score
`5 + (3/4)*10 = 12.5`, whose rounding interacts with the percentage. -/
def doc4Schemas : Document :=
  { docNoPaths with
    components := some
      { schemas := some
          [("A", { type := some ("object"), properties := some ["x"],
                   additionalPropertiesTruthy := false }),
           ("B", { type := some ("object"), properties := some ["y"],
                   additionalPropertiesTruthy := false }),
           ("C", { type := some ("object"), properties := some ["z"],
                   additionalPropertiesTruthy := false }),
           ("D", { type := some ("string"), properties := none,
                   additionalPropertiesTruthy := false })]
        securitySchemes := none, responses := none, parameters := none
        examples := none, requestBodies := none, headers := none } }

/-- A single schema of type `object` whose `properties` map is present but
empty (`properties: {}` — truthy in JS). -/
def docEmptyProps : Document :=
  { docNoPaths with
    components := some
      { schemas := some
          [("Thing", { type := some ("object"), properties := some [],
                       additionalPropertiesTruthy := false })]
        securitySchemes := none, responses := none, parameters := none
        examples := none, requestBodies := none, headers := none } }

/-- One well-named path whose path item has none of the five methods, so it is
never added to the pattern set. -/
def docBarePath : Document :=
  { docMinimal with paths := some [("/users", some emptyPathItem)] }

/-- Like the minimal document, but the single operation carries an explicitly
empty `security: []` override. -/
def docSecEmpty : Document :=
  { docMinimal with
    paths := some [("/test",
      some { emptyPathItem with get := some { minimalGetOp with security := some [] } })] }

/-- One operation declaring three request-body media types and one response
with two media types, all carrying schemas: five schema usages against
`totalOperations * 2 = 2`. -/
def multiMT (schema : Bool) : MediaTypeObject :=
  { schemaPresent := schema, exampleTruthy := false, examplesTruthy := false }

def multiContent : List (String × MediaTypeObject) :=
  [("application/json", multiMT true), ("application/xml", multiMT true),
   ("text/csv", multiMT true)]

def multiRespContent : List (String × MediaTypeObject) :=
  [("application/json", multiMT true), ("application/xml", multiMT true)]

def multiOp : Operation :=
  { description := none
    tags := none
    parameters := none
    requestBody := some { content := some multiContent }
    responses := [("200", { description := some ("Success"), content := some multiRespContent })]
    security := none }

def docMulti : Document :=
  { docMinimal with
    paths := some [("/test", some { emptyPathItem with get := some multiOp })] }

/-- A bare criterion result used to probe the aggregator's feedback logic. -/
def mkCriterion (name : String) (pct : ℤ) : CriteriaScore :=
  { name := name, score := some 0, maxScore := 100, percentage := some pct
    feedback := [], suggestions := [] }

/-- Seven criterion results with percentages `[90,10,20,30,95,85,88]` (the
spec's weak-area test vector). -/
def weakVector : List CriteriaScore :=
  [mkCriterion ("N1") 90, mkCriterion ("N2") 10, mkCriterion ("N3") 20,
   mkCriterion ("N4") 30, mkCriterion ("N5") 95, mkCriterion ("N6") 85,
   mkCriterion ("N7") 88]

/-- Seven criterion results where exactly one percentage (55) lies in the
interval `[50, 60)`. -/
def borderVector : List CriteriaScore :=
  [mkCriterion ("N1") 55, mkCriterion ("N2") 100, mkCriterion ("N3") 100,
   mkCriterion ("N4") 100, mkCriterion ("N5") 100, mkCriterion ("N6") 100,
   mkCriterion ("N7") 100]

/-! ## Helper lemmas: rounding and ratio bounds -/

theorem jsRound_nonneg {q : ℚ} (h : 0 ≤ q) : 0 ≤ jsRound q := by
  unfold jsRound
  have h0 : (0 : ℤ) = ⌊(1/2 : ℚ)⌋ := by norm_num
  rw [h0]
  exact Int.floor_le_floor (by linarith)

theorem jsRound_le {q : ℚ} {n : ℤ} (h : q ≤ (n : ℚ)) : jsRound q ≤ n := by
  unfold jsRound
  have : ⌊q + 1/2⌋ ≤ ⌊(n : ℚ) + 1/2⌋ := Int.floor_le_floor (by linarith)
  have h2 : ⌊(n : ℚ) + 1/2⌋ = n := by
    rw [add_comm, Int.floor_add_int]
    norm_num
  omega

theorem ratio_nonneg (a b : ℕ) : (0 : ℚ) ≤ (a : ℚ) / (b : ℚ) :=
  div_nonneg (by positivity) (by positivity)

theorem ratio_le_one {a b : ℕ} (hab : a ≤ b) (hb : 0 < b) :
    (a : ℚ) / (b : ℚ) ≤ 1 := by
  rw [div_le_one (by exact_mod_cast hb)]
  exact_mod_cast hab

theorem ratio_mul_bounds {a b : ℕ} (k : ℚ) (hk : 0 ≤ k) (hab : a ≤ b) :
    0 ≤ (a : ℚ) / (b : ℚ) * k ∧ (a : ℚ) / (b : ℚ) * k ≤ k := by
  constructor
  · exact mul_nonneg (ratio_nonneg a b) hk
  · rcases Nat.eq_zero_or_pos b with hb | hb
    · subst hb
      interval_cases a
      simpa using hk
    · calc (a : ℚ) / (b : ℚ) * k ≤ 1 * k :=
            mul_le_mul_of_nonneg_right (ratio_le_one hab hb) hk
        _ = k := one_mul k

theorem guarded_ratio_bounds {a b : ℕ} (k : ℚ) (hk : 0 ≤ k) (hab : a ≤ b) :
    0 ≤ (if 0 < b then (a : ℚ) / (b : ℚ) * k else 0)
      ∧ (if 0 < b then (a : ℚ) / (b : ℚ) * k else 0) ≤ k := by
  split
  · exact ratio_mul_bounds k hk hab
  · exact ⟨le_refl 0, hk⟩

/-! ## Raw-score bounds for each evaluator -/

theorem properlyTypedTerm_bounds (d : Document) :
    0 ≤ properlyTypedTerm d ∧ properlyTypedTerm d ≤ 10 := by
  unfold properlyTypedTerm
  split
  · exact ⟨le_min (by norm_num) (by positivity), min_le_left _ _⟩
  · norm_num

theorem schemaUsageTerm_bounds (d : Document) :
    0 ≤ schemaUsageTerm d ∧ schemaUsageTerm d ≤ 5 := by
  unfold schemaUsageTerm
  split
  · exact ⟨le_min (by norm_num) (by positivity), min_le_left _ _⟩
  · norm_num

theorem schemaAndTypesRaw_bounds (d : Document) :
    0 ≤ schemaAndTypesRaw d ∧ schemaAndTypesRaw d ≤ 20 := by
  obtain ⟨h1, h2⟩ := properlyTypedTerm_bounds d
  obtain ⟨h3, h4⟩ := schemaUsageTerm_bounds d
  unfold schemaAndTypesRaw
  split <;> constructor <;> linarith

theorem descriptionsRaw_bounds (d : Document) :
    0 ≤ descriptionsRaw d ∧ descriptionsRaw d ≤ 20 := by
  have hops := guarded_ratio_bounds (a := operationsWithDescriptions d)
    (b := (docOps8 d).length) 8 (by norm_num) (List.countP_le_length _)
  have hpar := guarded_ratio_bounds (a := parametersWithDescriptions d)
    (b := (allParams8 d).length) 4 (by norm_num) (List.countP_le_length _)
  have hres := guarded_ratio_bounds (a := responsesWithDescriptions d)
    (b := (allResponses8 d).length) 3 (by norm_num) (List.countP_le_length _)
  have hpth := guarded_ratio_bounds (a := pathsWithDescriptions d)
    (b := d.pathEntries.length) 2 (by norm_num) (List.countP_le_length _)
  unfold descriptionsRaw
  obtain ⟨ha, hb⟩ := hops
  obtain ⟨hc, hd⟩ := hpar
  obtain ⟨he, hf⟩ := hres
  obtain ⟨hg, hh⟩ := hpth
  split <;> constructor <;> linarith

theorem responseCodesRaw_bounds (d : Document) :
    0 ≤ responseCodesRaw d ∧ responseCodesRaw d ≤ 15 := by
  unfold responseCodesRaw
  split
  · obtain ⟨ha, hb⟩ := ratio_mul_bounds (a := operationsWithSuccess d)
      (b := (docOps5 d).length) 6 (by norm_num) (List.countP_le_length _)
    obtain ⟨hc, hd⟩ := ratio_mul_bounds (a := operationsWithErrors d)
      (b := (docOps5 d).length) 6 (by norm_num) (List.countP_le_length _)
    obtain ⟨he, hf⟩ := ratio_mul_bounds (a := operationsWithMultipleResponses d)
      (b := (docOps5 d).length) 3 (by norm_num) (List.countP_le_length _)
    constructor <;> linarith
  · norm_num

theorem examplesRaw_bounds (d : Document) :
    0 ≤ examplesRaw d ∧ examplesRaw d ≤ 10 := by
  have h1 := guarded_ratio_bounds (a := operationsWithRequestExamples d)
    (b := (opsWithBodies d).length) 5 (by norm_num) (List.countP_le_length _)
  have h2 := guarded_ratio_bounds (a := responsesWithExamples d)
    (b := (responsesWithContent d).length) 5 (by norm_num) (List.countP_le_length _)
  unfold examplesRaw
  obtain ⟨ha, hb⟩ := h1
  obtain ⟨hc, hd⟩ := h2
  constructor <;> linarith

theorem guard_const_bounds (c : Prop) [Decidable c] (k : ℚ) (hk : 0 ≤ k) :
    0 ≤ (if c then k else 0) ∧ (if c then k else 0) ≤ k := by
  split
  · exact ⟨hk, le_refl k⟩
  · exact ⟨le_refl 0, hk⟩

theorem guard_min_bounds (c : Prop) [Decidable c] (k x : ℚ) (hk : 0 ≤ k) (hx : 0 ≤ x) :
    0 ≤ (if c then min k x else 0) ∧ (if c then min k x else 0) ≤ k := by
  split
  · exact ⟨le_min hk hx, min_le_left _ _⟩
  · exact ⟨le_refl 0, hk⟩

theorem guard_ratio_bounds (c : Prop) [Decidable c] {a b : ℕ} (k : ℚ)
    (hk : 0 ≤ k) (hab : a ≤ b) :
    0 ≤ (if c then (a : ℚ) / (b : ℚ) * k else 0)
      ∧ (if c then (a : ℚ) / (b : ℚ) * k else 0) ≤ k := by
  split
  · exact ratio_mul_bounds k hk hab
  · exact ⟨le_refl 0, hk⟩

theorem securityRaw_bounds (d : Document) :
    0 ≤ securityRaw d ∧ securityRaw d ≤ 10 := by
  unfold securityRaw
  obtain ⟨ha, hb⟩ := guard_min_bounds (0 < securitySchemeCount d) 5
    ((securitySchemeCount d : ℚ) * 2) (by norm_num) (by positivity)
  obtain ⟨hc, hd⟩ := guard_const_bounds
    ((match d.security with | some l => decide (0 < l.length) | none => false) = true)
    (3 : ℚ) (by norm_num)
  obtain ⟨he, hf⟩ := guard_ratio_bounds
    (0 < (docOps5 d).length ∧ 0 < operationsWithSecurity d)
    (a := operationsWithSecurity d) (b := (docOps5 d).length)
    2 (by norm_num) (List.countP_le_length _)
  constructor <;> linarith

theorem bestPracticesRaw_bounds (d : Document) :
    0 ≤ bestPracticesRaw d ∧ bestPracticesRaw d ≤ 10 := by
  unfold bestPracticesRaw
  obtain ⟨ha, hb⟩ := guard_const_bounds
    ((match d.servers with | some l => decide (0 < l.length) | none => false) = true)
    (2 : ℚ) (by norm_num)
  obtain ⟨hc, hd⟩ := guard_const_bounds
    ((!d.info.version.isEmpty && d.info.version != "1.0.0") = true) (2 : ℚ) (by norm_num)
  obtain ⟨he, hf⟩ := guard_ratio_bounds (0 < (docOps5 d).length)
    (a := operationsWithTags d) (b := (docOps5 d).length)
    3 (by norm_num) (List.countP_le_length _)
  obtain ⟨hg, hh⟩ := guard_const_bounds (1 < componentsWithContent d) (2 : ℚ) (by norm_num)
  obtain ⟨hi, hj⟩ := guard_const_bounds (d.externalDocs = true) (1 : ℚ) (by norm_num)
  constructor <;> linarith

theorem wellNamedPaths_le (entries : List (String × Option PathItem)) :
    wellNamedPaths entries ≤ entries.length := by
  unfold wellNamedPaths
  calc (entries.map (·.1)).countP isWellNamed ≤ (entries.map (·.1)).length :=
        List.countP_le_length _
    _ = entries.length := List.length_map _ _

theorem pathsAndOperationsRaw_some_bounds (d : Document) (h : d.paths ≠ some []) :
    ∃ q : ℚ, pathsAndOperationsRaw d = some q ∧ 0 ≤ q ∧ q ≤ 15 := by
  cases hp : d.paths with
  | none =>
    refine ⟨0, ?_, by norm_num, by norm_num⟩
    simp [pathsAndOperationsRaw, hp]
  | some entries =>
    have hne : entries ≠ [] := fun hcon => h (by rw [hp, hcon])
    have hlen : entries.length ≠ 0 := by simpa [List.length_eq_zero] using hne
    have hval : pathsAndOperationsRaw d = some
        ((wellNamedPaths entries : ℚ) / entries.length * 7
          + (if 0 < crudPaths entries then min 5 ((crudPaths entries : ℚ) * 2) else 0)
          + (if overlappingPaths entries = 0 then 3 else 0)) := by
      simp only [pathsAndOperationsRaw, hp, hlen, if_false, ite_false]
    obtain ⟨ha, hb⟩ := ratio_mul_bounds (a := wellNamedPaths entries)
      (b := entries.length) 7 (by norm_num) (wellNamedPaths_le entries)
    obtain ⟨hc, hd⟩ := guard_min_bounds (0 < crudPaths entries) 5
      ((crudPaths entries : ℚ) * 2) (by norm_num) (by positivity)
    obtain ⟨he, hf⟩ := guard_const_bounds (overlappingPaths entries = 0) (3 : ℚ) (by norm_num)
    exact ⟨_, hval, by linarith, by linarith⟩

/-! ## Score and percentage fields in terms of the raw scores -/

theorem scoreSchemaAndTypes_score (d : Document) :
    (scoreSchemaAndTypes d).score = some (jsRound (schemaAndTypesRaw d)) := rfl

theorem scoreSchemaAndTypes_pct (d : Document) :
    (scoreSchemaAndTypes d).percentage
      = some (jsRound (schemaAndTypesRaw d / 20 * 100)) := rfl

theorem scoreDescriptions_score (d : Document) :
    (scoreDescriptions d).score = some (jsRound (descriptionsRaw d)) := rfl

theorem scoreDescriptions_pct (d : Document) :
    (scoreDescriptions d).percentage
      = some (jsRound (descriptionsRaw d / 20 * 100)) := rfl

theorem scoreSecurity_score (d : Document) :
    (scoreSecurity d).score = some (jsRound (securityRaw d)) := rfl

theorem scoreSecurity_pct (d : Document) :
    (scoreSecurity d).percentage = some (jsRound (securityRaw d / 10 * 100)) := rfl

theorem scoreBestPractices_score (d : Document) :
    (scoreBestPractices d).score = some (jsRound (bestPracticesRaw d)) := rfl

theorem scoreBestPractices_pct (d : Document) :
    (scoreBestPractices d).percentage
      = some (jsRound (bestPracticesRaw d / 10 * 100)) := rfl

theorem docOps5_none (d : Document) (hp : d.paths = none) : docOps5 d = [] := by
  simp [docOps5, Document.pathEntries, hp]

theorem scoreResponseCodes_score (d : Document) :
    (scoreResponseCodes d).score = some (jsRound (responseCodesRaw d)) := by
  cases hp : d.paths with
  | none =>
    have h0 : responseCodesRaw d = 0 := by
      simp [responseCodesRaw, docOps5_none d hp]
    simp [scoreResponseCodes, hp, h0]
    norm_num [jsRound]
  | some entries => simp [scoreResponseCodes, hp]

theorem scoreResponseCodes_pct (d : Document) :
    (scoreResponseCodes d).percentage
      = some (jsRound (responseCodesRaw d / 15 * 100)) := by
  cases hp : d.paths with
  | none =>
    have h0 : responseCodesRaw d = 0 := by
      simp [responseCodesRaw, docOps5_none d hp]
    simp [scoreResponseCodes, hp, h0]
    norm_num [jsRound]
  | some entries => simp [scoreResponseCodes, hp]

theorem examplesRaw_none (d : Document) (hp : d.paths = none) : examplesRaw d = 0 := by
  simp [examplesRaw, opsWithBodies, responsesWithContent, docOps5_none d hp,
    operationsWithRequestExamples, responsesWithExamples]

theorem scoreExamples_score (d : Document) :
    (scoreExamples d).score = some (jsRound (examplesRaw d)) := by
  cases hp : d.paths with
  | none =>
    simp [scoreExamples, hp, examplesRaw_none d hp]
    norm_num [jsRound]
  | some entries => simp [scoreExamples, hp]

theorem scoreExamples_pct (d : Document) :
    (scoreExamples d).percentage = some (jsRound (examplesRaw d / 10 * 100)) := by
  cases hp : d.paths with
  | none =>
    simp [scoreExamples, hp, examplesRaw_none d hp]
    norm_num [jsRound]
  | some entries => simp [scoreExamples, hp]

theorem scorePathsAndOperations_score (d : Document) :
    (scorePathsAndOperations d).score = (pathsAndOperationsRaw d).map jsRound := by
  cases hp : d.paths with
  | none =>
    simp [scorePathsAndOperations, hp, pathsAndOperationsRaw]
    norm_num [jsRound]
  | some entries => simp [scorePathsAndOperations, hp]

theorem scorePathsAndOperations_pct (d : Document) :
    (scorePathsAndOperations d).percentage
      = (pathsAndOperationsRaw d).map (fun q => jsRound (q / 15 * 100)) := by
  cases hp : d.paths with
  | none =>
    simp [scorePathsAndOperations, hp, pathsAndOperationsRaw]
    norm_num [jsRound]
  | some entries => simp [scorePathsAndOperations, hp]

/-- The total score is the sum of the seven per-criterion rounded scores
whenever the Paths & Operations score is a real number. -/
theorem totalScore_eq (d : Document) (q : ℚ)
    (hq : pathsAndOperationsRaw d = some q) :
    totalScore d = some (jsRound (schemaAndTypesRaw d) + jsRound (descriptionsRaw d)
      + jsRound q + jsRound (responseCodesRaw d) + jsRound (examplesRaw d)
      + jsRound (securityRaw d) + jsRound (bestPracticesRaw d)) := by
  have hpths : (scorePathsAndOperations d).score = some (jsRound q) := by
    rw [scorePathsAndOperations_score, hq]
    rfl
  simp only [totalScore, criteriaList, List.foldl,
    scoreSchemaAndTypes_score, scoreDescriptions_score, hpths,
    scoreResponseCodes_score, scoreExamples_score, scoreSecurity_score,
    scoreBestPractices_score, jsAdd]
  congr 1
  ring

theorem scorePathsAndOperations_max (d : Document) :
    (scorePathsAndOperations d).maxScore = 15 := by
  cases hp : d.paths <;> simp [scorePathsAndOperations, hp]

theorem scoreResponseCodes_max (d : Document) :
    (scoreResponseCodes d).maxScore = 15 := by
  cases hp : d.paths <;> simp [scoreResponseCodes, hp]

theorem scoreExamples_max (d : Document) :
    (scoreExamples d).maxScore = 10 := by
  cases hp : d.paths <;> simp [scoreExamples, hp]

theorem pct_bounds {raw M : ℚ} (hM : 0 < M) (h0 : 0 ≤ raw) (h1 : raw ≤ M) :
    0 ≤ jsRound (raw / M * 100) ∧ jsRound (raw / M * 100) ≤ 100 := by
  have ha : 0 ≤ raw / M * 100 := by positivity
  have hdiv : raw / M ≤ 1 := (div_le_one hM).2 h1
  have hb : raw / M * 100 ≤ 100 := by nlinarith
  exact ⟨jsRound_nonneg ha, jsRound_le (n := 100) (by exact_mod_cast hb)⟩

theorem pathsAndOperationsRaw_bounds_of_some (d : Document) (q : ℚ)
    (h : pathsAndOperationsRaw d = some q) : 0 ≤ q ∧ q ≤ 15 := by
  cases hp : d.paths with
  | none =>
    rw [show pathsAndOperationsRaw d = some 0 by simp [pathsAndOperationsRaw, hp]] at h
    obtain rfl : (0 : ℚ) = q := by simpa using h
    norm_num
  | some entries =>
    by_cases hlen : entries.length = 0
    · rw [show pathsAndOperationsRaw d = none by
        simp [pathsAndOperationsRaw, hp, hlen]] at h
      cases h
    · rw [show pathsAndOperationsRaw d = some
          ((wellNamedPaths entries : ℚ) / entries.length * 7
            + (if 0 < crudPaths entries then min 5 ((crudPaths entries : ℚ) * 2) else 0)
            + (if overlappingPaths entries = 0 then 3 else 0)) by
        simp only [pathsAndOperationsRaw, hp, hlen, ite_false]] at h
      obtain rfl := Option.some.inj h
      obtain ⟨ha, hb⟩ := ratio_mul_bounds (a := wellNamedPaths entries)
        (b := entries.length) 7 (by norm_num) (wellNamedPaths_le entries)
      obtain ⟨hc, hd⟩ := guard_min_bounds (0 < crudPaths entries) 5
        ((crudPaths entries : ℚ) * 2) (by norm_num) (by positivity)
      obtain ⟨he, hf⟩ := guard_const_bounds (overlappingPaths entries = 0) (3 : ℚ) (by norm_num)
      constructor <;> linarith


/-! ## Concrete raw-score computations -/

theorem schemaAndTypesRaw_docMinimal : schemaAndTypesRaw docMinimal = 0 := by
  have h1 : (schemaEntries docMinimal).length = 0 := by decide
  have h2 : properlyTypedSchemas docMinimal = 0 := by decide
  have h3 : totalOperations5 docMinimal = 1 := by decide
  have h4 : operationsWithSchemas docMinimal = 0 := by decide
  simp [schemaAndTypesRaw, properlyTypedTerm, schemaUsageTerm, h1, h2, h3, h4]

theorem descriptionsRaw_docMinimal : descriptionsRaw docMinimal = 3 := by
  have h1 : strTruthy docMinimal.info.description = false := by decide
  have h2 : (docOps8 docMinimal).length = 1 := by decide
  have h3 : operationsWithDescriptions docMinimal = 0 := by decide
  have h4 : (allParams8 docMinimal).length = 0 := by decide
  have h5 : (allResponses8 docMinimal).length = 1 := by decide
  have h6 : responsesWithDescriptions docMinimal = 1 := by decide
  have h7 : (Document.pathEntries docMinimal).length = 1 := by decide
  have h8 : pathsWithDescriptions docMinimal = 0 := by decide
  have h9 : docMinimal.info.description = none := by decide
  rw [descriptionsRaw, h2, h3, h4, h5, h6, h7, h8, h9]
  norm_num

theorem pathsAndOperationsRaw_docMinimal :
    pathsAndOperationsRaw docMinimal = some 10 := by
  have hp : docMinimal.paths
      = some [("/test", some { emptyPathItem with get := some minimalGetOp })] := rfl
  have h1 : wellNamedPaths
      [("/test", some { emptyPathItem with get := some minimalGetOp })] = 1 := by decide
  have h2 : crudPaths
      [("/test", some { emptyPathItem with get := some minimalGetOp })] = 0 := by decide
  have h3 : overlappingPaths
      [("/test", some { emptyPathItem with get := some minimalGetOp })] = 0 := by decide
  rw [pathsAndOperationsRaw, hp]
  simp [h1, h2, h3]
  norm_num

theorem responseCodesRaw_docMinimal : responseCodesRaw docMinimal = 6 := by
  have h1 : (docOps5 docMinimal).length = 1 := by decide
  have h2 : operationsWithSuccess docMinimal = 1 := by decide
  have h3 : operationsWithErrors docMinimal = 0 := by decide
  have h4 : operationsWithMultipleResponses docMinimal = 0 := by decide
  rw [responseCodesRaw, h1, h2, h3, h4]
  norm_num

theorem examplesRaw_docMinimal : examplesRaw docMinimal = 0 := by
  have h1 : (opsWithBodies docMinimal).length = 0 := by decide
  have h2 : (responsesWithContent docMinimal).length = 0 := by decide
  rw [examplesRaw, h1, h2]
  norm_num

theorem securityRaw_docMinimal : securityRaw docMinimal = 0 := by
  have h1 : securitySchemeCount docMinimal = 0 := by decide
  have h2 : operationsWithSecurity docMinimal = 0 := by decide
  have h3 : docMinimal.security = none := rfl
  rw [securityRaw, h1, h2, h3]
  norm_num

theorem bestPracticesRaw_docMinimal : bestPracticesRaw docMinimal = 0 := by
  have h1 : docMinimal.servers = none := rfl
  have h2 : docMinimal.info.version = "1.0.0" := rfl
  have h3 : (docOps5 docMinimal).length = 1 := by decide
  have h4 : operationsWithTags docMinimal = 0 := by decide
  have h5 : componentsWithContent docMinimal = 0 := by decide
  have h6 : docMinimal.externalDocs = false := rfl
  rw [bestPracticesRaw, h1, h2, h3, h4, h5, h6]
  norm_num

theorem totalScore_docMinimal : totalScore docMinimal = some 19 := by
  rw [totalScore_eq docMinimal 10 pathsAndOperationsRaw_docMinimal,
    schemaAndTypesRaw_docMinimal, descriptionsRaw_docMinimal,
    responseCodesRaw_docMinimal, examplesRaw_docMinimal,
    securityRaw_docMinimal, bestPracticesRaw_docMinimal]
  norm_num [jsRound]

theorem schemaAndTypesRaw_doc4Schemas : schemaAndTypesRaw doc4Schemas = 25/2 := by
  have h1 : (schemaEntries doc4Schemas).length = 4 := by decide
  have h2 : properlyTypedSchemas doc4Schemas = 3 := by decide
  have h3 : totalOperations5 doc4Schemas = 0 := by decide
  rw [schemaAndTypesRaw, properlyTypedTerm, schemaUsageTerm, h1, h2, h3]
  norm_num

theorem schemaAndTypesRaw_docEmptyProps : schemaAndTypesRaw docEmptyProps = 15 := by
  have h1 : (schemaEntries docEmptyProps).length = 1 := by decide
  have h2 : properlyTypedSchemas docEmptyProps = 1 := by decide
  have h3 : totalOperations5 docEmptyProps = 0 := by decide
  rw [schemaAndTypesRaw, properlyTypedTerm, schemaUsageTerm, h1, h2, h3]
  norm_num

theorem pathsAndOperationsRaw_docBarePath :
    pathsAndOperationsRaw docBarePath = some 7 := by
  have hp : docBarePath.paths = some [("/users", some emptyPathItem)] := rfl
  have h1 : wellNamedPaths [("/users", some emptyPathItem)] = 1 := by decide
  have h2 : crudPaths [("/users", some emptyPathItem)] = 0 := by decide
  have h3 : overlappingPaths [("/users", some emptyPathItem)] = 1 := by decide
  rw [pathsAndOperationsRaw, hp]
  simp [h1, h2, h3]

theorem securityRaw_docSecEmpty : securityRaw docSecEmpty = 2 := by
  have h1 : securitySchemeCount docSecEmpty = 0 := by decide
  have h2 : operationsWithSecurity docSecEmpty = 1 := by decide
  have h3 : (docOps5 docSecEmpty).length = 1 := by decide
  have h4 : docSecEmpty.security = none := rfl
  rw [securityRaw, h1, h2, h3, h4]
  norm_num

theorem schemaUsageTerm_docMulti : schemaUsageTerm docMulti = 5 := by
  have h1 : totalOperations5 docMulti = 1 := by decide
  have h2 : operationsWithSchemas docMulti = 5 := by decide
  rw [schemaUsageTerm, h1, h2]
  norm_num

theorem schemaAndTypesRaw_docMulti : schemaAndTypesRaw docMulti = 5 := by
  have h1 : (schemaEntries docMulti).length = 0 := by decide
  have h2 : properlyTypedSchemas docMulti = 0 := by decide
  rw [schemaAndTypesRaw, properlyTypedTerm, h1, h2, schemaUsageTerm_docMulti]
  norm_num

/-! ## The claims -/

/-- C8: the "Minimal API" document — one path `/test` with only a `get`
operation whose sole response is `"200"` with a description and no schema, no
examples, no security, no tags, version `"1.0.0"`, no servers — scores
Security 0, Best Practices at most 2 (in fact 0), Examples & Samples 0, and an
overall grade of D or F (in fact F, with total score 19). -/
theorem claim_C8_minimal_api :
    (scoreSecurity docMinimal).score = some 0
    ∧ (∃ b : ℤ, (scoreBestPractices docMinimal).score = some b ∧ b ≤ 2)
    ∧ (scoreExamples docMinimal).score = some 0
    ∧ ((scoreDocument docMinimal).grade = "D" ∨ (scoreDocument docMinimal).grade = "F") := by
  have hsec : (scoreSecurity docMinimal).score = some 0 := by
    rw [scoreSecurity_score, securityRaw_docMinimal]
    norm_num [jsRound]
  have hbp : (scoreBestPractices docMinimal).score = some 0 := by
    rw [scoreBestPractices_score, bestPracticesRaw_docMinimal]
    norm_num [jsRound]
  have hex : (scoreExamples docMinimal).score = some 0 := by
    rw [scoreExamples_score, examplesRaw_docMinimal]
    norm_num [jsRound]
  have hgrade : (scoreDocument docMinimal).grade = "F" := by
    show calculateGradeOpt (totalScore docMinimal) = "F"
    rw [totalScore_docMinimal]
    decide
  exact ⟨hsec, ⟨0, hbp, by norm_num⟩, hex, Or.inr hgrade⟩

/-- C1 counterexample: a document whose `paths` object is present but empty.
The claim requires score 0 and a `No paths defined` finding from all three
evaluators, but the early returns test `!document.paths` and an empty object
is truthy in JS: Paths & Operations divides `0/0` and scores `NaN` (`none`),
and none of the three evaluators emits the `No paths defined` finding. -/
theorem claim_C1_counterexample :
    (scorePathsAndOperations docEmptyPaths).score = none
    ∧ (scoreResponseCodes docEmptyPaths).score = some 0
    ∧ (scoreExamples docEmptyPaths).score = some 0
    ∧ "No paths defined" ∉ (scorePathsAndOperations docEmptyPaths).feedback
    ∧ "No paths defined" ∉ (scoreResponseCodes docEmptyPaths).feedback
    ∧ "No paths defined" ∉ (scoreExamples docEmptyPaths).feedback := by
  have hrc : (scoreResponseCodes docEmptyPaths).score = some 0 := by
    have h0 : responseCodesRaw docEmptyPaths = 0 := by
      have h1 : (docOps5 docEmptyPaths).length = 0 := by decide
      rw [responseCodesRaw, h1]
      norm_num
    rw [scoreResponseCodes_score, h0]
    norm_num [jsRound]
  have hex : (scoreExamples docEmptyPaths).score = some 0 := by
    have h0 : examplesRaw docEmptyPaths = 0 := by
      have h1 : (opsWithBodies docEmptyPaths).length = 0 := by decide
      have h2 : (responsesWithContent docEmptyPaths).length = 0 := by decide
      rw [examplesRaw, h1, h2]
      norm_num
    rw [scoreExamples_score, h0]
    norm_num [jsRound]
  have hpo : (scorePathsAndOperations docEmptyPaths).score = none := by
    rw [scorePathsAndOperations_score, (by decide : pathsAndOperationsRaw docEmptyPaths = none)]
    rfl
  exact ⟨hpo, hrc, hex, by decide, by decide, by decide⟩

/-- C1 (amended): when the `paths` mapping is **absent**, the Paths &
Operations, Response Codes, and Examples & Samples evaluators each return
exactly their early-out result — score 0, percentage 0, the single finding
`No paths defined`, and one fixed suggestion — so no other scoring runs.
(When `paths` is present but empty the early returns do not fire; see the
counterexample.) -/
theorem claim_C1_no_paths_short_circuit (d : Document) (h : d.paths = none) :
    scorePathsAndOperations d =
      ⟨"Paths & Operations", some 0, 15, some 0, ["No paths defined"],
        ["Define API paths and operations"]⟩
    ∧ scoreResponseCodes d =
      ⟨"Response Codes", some 0, 15, some 0, ["No paths defined"],
        ["Define API operations with proper response codes"]⟩
    ∧ scoreExamples d =
      ⟨"Examples & Samples", some 0, 10, some 0, ["No paths defined"],
        ["Add request and response examples"]⟩ := by
  refine ⟨?_, ?_, ?_⟩ <;>
    simp [scorePathsAndOperations, scoreResponseCodes, scoreExamples, h]

theorem claim_C1_no_paths_short_circuit_witness :
    scorePathsAndOperations docNoPaths =
      ⟨"Paths & Operations", some 0, 15, some 0, ["No paths defined"],
        ["Define API paths and operations"]⟩
    ∧ scoreResponseCodes docNoPaths =
      ⟨"Response Codes", some 0, 15, some 0, ["No paths defined"],
        ["Define API operations with proper response codes"]⟩
    ∧ scoreExamples docNoPaths =
      ⟨"Examples & Samples", some 0, 10, some 0, ["No paths defined"],
        ["Add request and response examples"]⟩ :=
  claim_C1_no_paths_short_circuit docNoPaths rfl

/-- C2 counterexample: for the document with a present-but-empty `paths`
object the Paths & Operations score is `NaN`, so the total score is `NaN`
(`none`) and does not lie in `[0, 100]`. -/
theorem claim_C2_counterexample :
    totalScore docEmptyPaths = none
    ∧ ¬ ∃ t : ℤ, totalScore docEmptyPaths = some t ∧ 0 ≤ t ∧ t ≤ 100 := by
  have h : totalScore docEmptyPaths = none := by decide
  refine ⟨h, ?_⟩
  rintro ⟨t, ht, -, -⟩
  rw [h] at ht
  cases ht

/-- C2 (amended): for every document whose `paths` mapping is absent or
non-empty, the total score is the sum of the seven per-criterion scores, each
rounded before summation, the fixed maxima are `[20,20,15,15,10,10,10]`, and
the total lies in `[0, 100]`. (When `paths` is present but empty, the Paths &
Operations score and hence the total is `NaN`; see the counterexample.) -/
theorem claim_C2_total_score (d : Document) (h : d.paths ≠ some []) :
    ∃ t : ℤ, totalScore d = some t ∧ 0 ≤ t ∧ t ≤ 100
      ∧ (∃ q : ℚ, pathsAndOperationsRaw d = some q
          ∧ t = jsRound (schemaAndTypesRaw d) + jsRound (descriptionsRaw d)
              + jsRound q + jsRound (responseCodesRaw d) + jsRound (examplesRaw d)
              + jsRound (securityRaw d) + jsRound (bestPracticesRaw d))
      ∧ (criteriaList d).map (·.maxScore) = [20, 20, 15, 15, 10, 10, 10] := by
  obtain ⟨q, hq, hq0, hq15⟩ := pathsAndOperationsRaw_some_bounds d h
  obtain ⟨h10, h1u⟩ := schemaAndTypesRaw_bounds d
  obtain ⟨h20, h2u⟩ := descriptionsRaw_bounds d
  obtain ⟨h40, h4u⟩ := responseCodesRaw_bounds d
  obtain ⟨h50, h5u⟩ := examplesRaw_bounds d
  obtain ⟨h60, h6u⟩ := securityRaw_bounds d
  obtain ⟨h70, h7u⟩ := bestPracticesRaw_bounds d
  have b1 := jsRound_nonneg h10
  have b2 := jsRound_nonneg h20
  have b3 := jsRound_nonneg hq0
  have b4 := jsRound_nonneg h40
  have b5 := jsRound_nonneg h50
  have b6 := jsRound_nonneg h60
  have b7 := jsRound_nonneg h70
  have u1 := jsRound_le (n := 20) (by exact_mod_cast h1u)
  have u2 := jsRound_le (n := 20) (by exact_mod_cast h2u)
  have u3 := jsRound_le (n := 15) (by exact_mod_cast hq15)
  have u4 := jsRound_le (n := 15) (by exact_mod_cast h4u)
  have u5 := jsRound_le (n := 10) (by exact_mod_cast h5u)
  have u6 := jsRound_le (n := 10) (by exact_mod_cast h6u)
  have u7 := jsRound_le (n := 10) (by exact_mod_cast h7u)
  refine ⟨_, totalScore_eq d q hq, by omega, by omega, ⟨q, hq, rfl⟩, ?_⟩
  simp [criteriaList, scorePathsAndOperations_max, scoreResponseCodes_max,
    scoreExamples_max, scoreSchemaAndTypes, scoreDescriptions, scoreSecurity,
    scoreBestPractices]

theorem claim_C2_total_score_witness :
    ∃ t : ℤ, totalScore docMinimal = some t ∧ 0 ≤ t ∧ t ≤ 100
      ∧ (∃ q : ℚ, pathsAndOperationsRaw docMinimal = some q
          ∧ t = jsRound (schemaAndTypesRaw docMinimal)
              + jsRound (descriptionsRaw docMinimal)
              + jsRound q + jsRound (responseCodesRaw docMinimal)
              + jsRound (examplesRaw docMinimal)
              + jsRound (securityRaw docMinimal) + jsRound (bestPracticesRaw docMinimal))
      ∧ (criteriaList docMinimal).map (·.maxScore) = [20, 20, 15, 15, 10, 10, 10] :=
  claim_C2_total_score docMinimal (by decide)

/-- C3 counterexample: for the document with four schemas of which three are
properly typed, the raw Schema & Types score is `12.5`; the stored integer
score is `round(12.5) = 13` but the stored percentage is
`round(12.5 / 20 * 100) = 63`, whereas the claim's formula applied to the
integer score field gives `round(13 / 20 * 100) = 65 ≠ 63` — the code computes
the percentage from the *unrounded* score. -/
theorem claim_C3_counterexample :
    (scoreSchemaAndTypes doc4Schemas).score = some 13
    ∧ (scoreSchemaAndTypes doc4Schemas).percentage = some 63
    ∧ jsRound ((13 : ℚ) / 20 * 100) = 65
    ∧ (63 : ℤ) ≠ 65 := by
  refine ⟨?_, ?_, ?_, by decide⟩
  · rw [scoreSchemaAndTypes_score, schemaAndTypesRaw_doc4Schemas]
    norm_num [jsRound]
  · rw [scoreSchemaAndTypes_pct, schemaAndTypesRaw_doc4Schemas]
    norm_num [jsRound]
  · norm_num [jsRound]

/-- C3 (amended): for every document and every criterion result, the stored
integer score and stored percentage are rounded from one shared *unrounded*
raw value (`score = round(raw)`, `percentage = round(raw / max * 100)` — not
from the integer score field), and whenever the percentage is a real number it
lies in `[0, 100]`. -/
theorem claim_C3_percentage (d : Document) (c : CriteriaScore)
    (hc : c ∈ criteriaList d) :
    (∃ raw : Option ℚ, c.score = raw.map jsRound
        ∧ c.percentage = raw.map (fun q => jsRound (q / (c.maxScore : ℚ) * 100)))
    ∧ ∀ p : ℤ, c.percentage = some p → 0 ≤ p ∧ p ≤ 100 := by
  have hcast20 : (((20 : ℤ) : ℚ)) = 20 := by norm_num
  have hcast15 : (((15 : ℤ) : ℚ)) = 15 := by norm_num
  have hcast10 : (((10 : ℤ) : ℚ)) = 10 := by norm_num
  simp only [criteriaList, List.mem_cons, List.not_mem_nil, or_false] at hc
  rcases hc with rfl | rfl | rfl | rfl | rfl | rfl | rfl
  · obtain ⟨hr0, hru⟩ := schemaAndTypesRaw_bounds d
    refine ⟨⟨some (schemaAndTypesRaw d), by rw [scoreSchemaAndTypes_score]; rfl, ?_⟩, ?_⟩
    · rw [scoreSchemaAndTypes_pct]
      show _ = some (jsRound (schemaAndTypesRaw d / (((20 : ℤ) : ℚ)) * 100))
      rw [hcast20]
    · intro p hp
      rw [scoreSchemaAndTypes_pct] at hp
      obtain rfl := Option.some.inj hp
      exact pct_bounds (by norm_num) hr0 hru
  · obtain ⟨hr0, hru⟩ := descriptionsRaw_bounds d
    refine ⟨⟨some (descriptionsRaw d), by rw [scoreDescriptions_score]; rfl, ?_⟩, ?_⟩
    · rw [scoreDescriptions_pct]
      show _ = some (jsRound (descriptionsRaw d / (((20 : ℤ) : ℚ)) * 100))
      rw [hcast20]
    · intro p hp
      rw [scoreDescriptions_pct] at hp
      obtain rfl := Option.some.inj hp
      exact pct_bounds (by norm_num) hr0 hru
  · refine ⟨⟨pathsAndOperationsRaw d, by rw [scorePathsAndOperations_score], ?_⟩, ?_⟩
    · rw [scorePathsAndOperations_pct, scorePathsAndOperations_max]
      rw [show (((15 : ℤ) : ℚ)) = 15 from by norm_num]
    · intro p hp
      rw [scorePathsAndOperations_pct] at hp
      cases hr : pathsAndOperationsRaw d with
      | none => rw [hr] at hp; cases hp
      | some q =>
        rw [hr] at hp
        obtain rfl := Option.some.inj hp
        obtain ⟨hq0, hq15⟩ := pathsAndOperationsRaw_bounds_of_some d q hr
        exact pct_bounds (by norm_num) hq0 hq15
  · obtain ⟨hr0, hru⟩ := responseCodesRaw_bounds d
    refine ⟨⟨some (responseCodesRaw d), by rw [scoreResponseCodes_score]; rfl, ?_⟩, ?_⟩
    · rw [scoreResponseCodes_pct, scoreResponseCodes_max]
      rw [show (((15 : ℤ) : ℚ)) = 15 from by norm_num]
      rfl
    · intro p hp
      rw [scoreResponseCodes_pct] at hp
      obtain rfl := Option.some.inj hp
      exact pct_bounds (by norm_num) hr0 hru
  · obtain ⟨hr0, hru⟩ := examplesRaw_bounds d
    refine ⟨⟨some (examplesRaw d), by rw [scoreExamples_score]; rfl, ?_⟩, ?_⟩
    · rw [scoreExamples_pct, scoreExamples_max]
      rw [show (((10 : ℤ) : ℚ)) = 10 from by norm_num]
      rfl
    · intro p hp
      rw [scoreExamples_pct] at hp
      obtain rfl := Option.some.inj hp
      exact pct_bounds (by norm_num) hr0 hru
  · obtain ⟨hr0, hru⟩ := securityRaw_bounds d
    refine ⟨⟨some (securityRaw d), by rw [scoreSecurity_score]; rfl, ?_⟩, ?_⟩
    · rw [scoreSecurity_pct]
      show _ = some (jsRound (securityRaw d / (((10 : ℤ) : ℚ)) * 100))
      rw [hcast10]
    · intro p hp
      rw [scoreSecurity_pct] at hp
      obtain rfl := Option.some.inj hp
      exact pct_bounds (by norm_num) hr0 hru
  · obtain ⟨hr0, hru⟩ := bestPracticesRaw_bounds d
    refine ⟨⟨some (bestPracticesRaw d), by rw [scoreBestPractices_score]; rfl, ?_⟩, ?_⟩
    · rw [scoreBestPractices_pct]
      show _ = some (jsRound (bestPracticesRaw d / (((10 : ℤ) : ℚ)) * 100))
      rw [hcast10]
    · intro p hp
      rw [scoreBestPractices_pct] at hp
      obtain rfl := Option.some.inj hp
      exact pct_bounds (by norm_num) hr0 hru

theorem claim_C3_percentage_witness :
    (∃ raw : Option ℚ, (scoreSecurity docMinimal).score = raw.map jsRound
        ∧ (scoreSecurity docMinimal).percentage
            = raw.map (fun q => jsRound (q / ((scoreSecurity docMinimal).maxScore : ℚ) * 100)))
    ∧ ∀ p : ℤ, (scoreSecurity docMinimal).percentage = some p → 0 ≤ p ∧ p ≤ 100 :=
  claim_C3_percentage docMinimal (scoreSecurity docMinimal) (by simp [criteriaList])

/-- Rank of a letter grade, for stating monotonicity (F < D < C < B < A). -/
def gradeRank (g : String) : ℕ :=
  if g = "F" then 0 else if g = "D" then 1 else if g = "C" then 2
  else if g = "B" then 3 else 4

/-- C5: the grade is a pure monotone function of the total score alone, with
bands `≥80 → A, ≥70 → B, ≥60 → C, ≥50 → D, else F` (no gaps, no overlaps),
hitting exactly the claimed boundary values. -/
theorem claim_C5_grade_bands :
    (∀ s t : ℤ, s ≤ t → gradeRank (calculateGrade s) ≤ gradeRank (calculateGrade t))
    ∧ calculateGrade 80 = "A" ∧ calculateGrade 79 = "B" ∧ calculateGrade 70 = "B"
    ∧ calculateGrade 69 = "C" ∧ calculateGrade 60 = "C" ∧ calculateGrade 59 = "D"
    ∧ calculateGrade 50 = "D" ∧ calculateGrade 49 = "F"
    ∧ (∀ s : ℤ, 80 ≤ s → calculateGrade s = "A")
    ∧ (∀ s : ℤ, 70 ≤ s → s < 80 → calculateGrade s = "B")
    ∧ (∀ s : ℤ, 60 ≤ s → s < 70 → calculateGrade s = "C")
    ∧ (∀ s : ℤ, 50 ≤ s → s < 60 → calculateGrade s = "D")
    ∧ (∀ s : ℤ, s < 50 → calculateGrade s = "F")
    ∧ (∀ d : Document, (scoreDocument d).grade = calculateGradeOpt (totalScore d)) := by
  refine ⟨?_, by decide, by decide, by decide, by decide, by decide, by decide,
    by decide, by decide, ?_, ?_, ?_, ?_, ?_, fun d => rfl⟩
  · intro s t hst
    unfold calculateGrade
    split_ifs <;> first | decide | (exfalso; omega)
  all_goals
    intro s h1
    try intro h2
  all_goals
    unfold calculateGrade
    split_ifs <;> first | rfl | (exfalso; omega)

theorem claim_C5_grade_bands_witness :
    gradeRank (calculateGrade 49) ≤ gradeRank (calculateGrade 80)
    ∧ calculateGrade 85 = "A" ∧ calculateGrade 42 = "F" := by
  obtain ⟨hmono, -, -, -, -, -, -, -, -, hA, -, -, -, hF, -⟩ := claim_C5_grade_bands
  exact ⟨hmono 49 80 (by decide), hA 85 (by decide), hF 42 (by decide)⟩

/-- The spec's reading of "properly typed" in claim C6: type `object` and a
**non-empty** properties map (definition written from the claim's words, for
comparison with the code's `isProperlyTyped`). -/
def properlyTypedSpecCount (d : Document) : ℕ :=
  (schemaEntries d).countP (fun e =>
    e.2.type == some ("object") && e.2.properties.isSome
      && !(e.2.properties.getD []).isEmpty)

/-- C6 counterexample: a single schema of type `object` with a present but
**empty** `properties` map. The claim says it is not properly typed (so the
term would be 0 and the score 5), but the code only tests truthiness of
`properties` — an empty object is truthy — so it counts as properly typed,
the term is 10, and the stored score is 15. -/
theorem claim_C6_counterexample :
    properlyTypedSchemas docEmptyProps = 1
    ∧ properlyTypedSpecCount docEmptyProps = 0
    ∧ (schemaEntries docEmptyProps).map (fun e => e.2.properties) = [some []]
    ∧ properlyTypedTerm docEmptyProps = 10
    ∧ (scoreSchemaAndTypes docEmptyProps).score = some 15 := by
  refine ⟨by decide, by decide, by decide, ?_, ?_⟩
  · have h2 : properlyTypedSchemas docEmptyProps = 1 := by decide
    have h1 : (schemaEntries docEmptyProps).length = 1 := by decide
    rw [properlyTypedTerm, h1, h2]
    norm_num
  · rw [scoreSchemaAndTypes_score, schemaAndTypesRaw_docEmptyProps]
    norm_num [jsRound]

/-- C6 (amended): a named schema counts as properly typed exactly when its
type is `object` and its `properties` map is **present** (possibly empty);
the properly-typed term equals `min(10, properlyTyped/schemaCount * 10)`
whenever there is at least one schema; consequently when all N ≥ 1 schemas
are properly typed (in particular when all have non-empty properties) the term
contributes exactly 10. -/
theorem claim_C6_properly_typed (d : Document) :
    (∀ e ∈ schemaEntries d, isProperlyTyped e.2 = true
        ↔ (e.2.type = some ("object") ∧ e.2.properties.isSome = true))
    ∧ (0 < (schemaEntries d).length →
        properlyTypedTerm d
          = min 10 ((properlyTypedSchemas d : ℚ) / ((schemaEntries d).length : ℚ) * 10))
    ∧ (1 ≤ (schemaEntries d).length
        → (∀ e ∈ schemaEntries d, isProperlyTyped e.2 = true)
        → properlyTypedTerm d = 10) := by
  refine ⟨?_, ?_, ?_⟩
  · intro e _
    simp [isProperlyTyped]
  · intro hlen
    have hmax : max (schemaEntries d).length 1 = (schemaEntries d).length :=
      Nat.max_eq_left hlen
    rw [properlyTypedTerm, hmax]
    split
    · rfl
    · rename_i hzero
      have h0 : properlyTypedSchemas d = 0 := by omega
      rw [h0]
      norm_num
  · intro hlen hall
    have hcount : properlyTypedSchemas d = (schemaEntries d).length := by
      rw [properlyTypedSchemas]
      exact List.countP_eq_length.2 (fun e he => hall e he)
    have hpos : 0 < properlyTypedSchemas d := by omega
    have hmax : max (schemaEntries d).length 1 = (schemaEntries d).length :=
      Nat.max_eq_left hlen
    rw [properlyTypedTerm, if_pos hpos, hmax, hcount]
    have hne : ((schemaEntries d).length : ℚ) ≠ 0 := by
      exact_mod_cast Nat.pos_iff_ne_zero.1 (by omega)
    rw [div_self hne]
    norm_num

theorem claim_C6_properly_typed_witness : properlyTypedTerm docEmptyProps = 10 :=
  (claim_C6_properly_typed docEmptyProps).2.2 (by decide) (by decide)

/-- The spec's reading of the pattern count in claim C7: the number of
distinct parameter-normalized patterns over **all** paths (definition written
from the claim's words, for comparison with the code's `pathPatterns`, which
only collects paths whose path item carries at least one of the five
methods). -/
def specDistinctPatterns (entries : List (String × Option PathItem)) : ℕ :=
  ((entries.map (fun e => normalizePath e.1)).eraseDups).length

/-- C7 counterexample: one path `/users` whose path item has none of the five
methods. Under the claim's formula the path list has one distinct normalized
pattern, so `1 - 1 = 0` and the +3 bonus should be awarded; but the code adds
a pattern only for paths with at least one of `get/post/put/patch/delete`, so
its set stays empty, the overlap count is `1 - 0 = 1`, the bonus is withheld
(raw score 7, not 10), the overlap is reported as a finding and a redundancy
suggestion is added. -/
theorem claim_C7_counterexample :
    specDistinctPatterns [("/users", some emptyPathItem)] = 1
    ∧ overlappingPaths [("/users", some emptyPathItem)] = 1
    ∧ pathsAndOperationsRaw docBarePath = some 7
    ∧ "1 potentially overlapping paths detected"
        ∈ (scorePathsAndOperations docBarePath).feedback
    ∧ "No overlapping or redundant paths detected"
        ∉ (scorePathsAndOperations docBarePath).feedback
    ∧ "Review path structure for redundancy"
        ∈ (scorePathsAndOperations docBarePath).suggestions := by
  refine ⟨by decide, by decide, pathsAndOperationsRaw_docBarePath,
    by decide, by decide, ?_⟩
  have hp : docBarePath.paths = some [("/users", some emptyPathItem)] := rfl
  have h3 : overlappingPaths [("/users", some emptyPathItem)] = 1 := by decide
  simp only [scorePathsAndOperations, hp, h3]
  simp

/-- C7 (amended): for every document with at least one path, the +3
no-redundancy bonus is awarded iff `paths.length` minus the number of distinct
parameter-normalized patterns equals 0, where the pattern set only collects
paths whose path item declares at least one of `get/post/put/patch/delete`
(paths without such methods are never inserted, so they always count as
overlapping); otherwise the overlap count is reported as a finding and a
redundancy suggestion is added. -/
theorem claim_C7_redundancy_bonus (d : Document)
    (entries : List (String × Option PathItem))
    (hp : d.paths = some entries) (hne : entries ≠ []) :
    pathsAndOperationsRaw d = some
      ((wellNamedPaths entries : ℚ) / entries.length * 7
        + (if 0 < crudPaths entries then min 5 ((crudPaths entries : ℚ) * 2) else 0)
        + (if overlappingPaths entries = 0 then 3 else 0))
    ∧ overlappingPaths entries = entries.length - (pathPatterns entries).length
    ∧ (∃ pre : List String, (scorePathsAndOperations d).feedback
        = pre ++ (if overlappingPaths entries = 0 then
            ["No overlapping or redundant paths detected"]
          else [toString (overlappingPaths entries)
                  ++ " potentially overlapping paths detected"]))
    ∧ (∃ rest : List String, (scorePathsAndOperations d).suggestions
        = (if overlappingPaths entries = 0 then []
           else ["Review path structure for redundancy"]) ++ rest) := by
  have hlen : entries.length ≠ 0 := by simpa [List.length_eq_zero] using hne
  refine ⟨?_, rfl, ?_, ?_⟩
  · simp only [pathsAndOperationsRaw, hp, hlen, ite_false]
  · refine ⟨[toString (wellNamedPaths entries) ++ "/" ++ toString entries.length
      ++ " paths follow RESTful naming conventions"]
      ++ (if 0 < crudPaths entries then
            ["Found " ++ toString (crudPaths entries) ++ " CRUD-pattern endpoints"]
          else []), ?_⟩
    simp only [scorePathsAndOperations, hp, List.append_assoc]
  · refine ⟨(if (match pathsAndOperationsRaw d with
        | some q => decide (q < 15 * (6/10 : ℚ))
        | none => false) then
          ["Use RESTful naming conventions (lowercase, hyphens, nouns)",
           "Implement consistent CRUD operations for resources"]
        else []), ?_⟩
    simp only [scorePathsAndOperations, hp]

theorem claim_C7_redundancy_bonus_witness :
    pathsAndOperationsRaw docMinimal = some
      ((wellNamedPaths [("/test", some { emptyPathItem with get := some minimalGetOp })] : ℚ)
          / [("/test", some { emptyPathItem with get := some minimalGetOp })].length * 7
        + (if 0 < crudPaths [("/test", some { emptyPathItem with get := some minimalGetOp })]
           then min 5 ((crudPaths
               [("/test", some { emptyPathItem with get := some minimalGetOp })] : ℚ) * 2)
           else 0)
        + (if overlappingPaths
              [("/test", some { emptyPathItem with get := some minimalGetOp })] = 0
           then 3 else 0))
    ∧ overlappingPaths [("/test", some { emptyPathItem with get := some minimalGetOp })]
        = [("/test", some { emptyPathItem with get := some minimalGetOp })].length
          - (pathPatterns [("/test", some { emptyPathItem with get := some minimalGetOp })]).length
    ∧ (∃ pre : List String, (scorePathsAndOperations docMinimal).feedback
        = pre ++ (if overlappingPaths
              [("/test", some { emptyPathItem with get := some minimalGetOp })] = 0 then
            ["No overlapping or redundant paths detected"]
          else [toString (overlappingPaths
                  [("/test", some { emptyPathItem with get := some minimalGetOp })])
                  ++ " potentially overlapping paths detected"]))
    ∧ (∃ rest : List String, (scorePathsAndOperations docMinimal).suggestions
        = (if overlappingPaths
              [("/test", some { emptyPathItem with get := some minimalGetOp })] = 0 then []
           else ["Review path structure for redundancy"]) ++ rest) :=
  claim_C7_redundancy_bonus docMinimal
    [("/test", some { emptyPathItem with get := some minimalGetOp })] rfl (by decide)

/-- C9: the schema-usage term is clamped to at most 5 by the `min`, and the
whole raw Schema & Types score (and its rounding, the stored score) stays at
most 20 — even though the counted usages can exceed `2 × totalOperations`, as
the concrete document with three request media types and two response media
types on a single operation shows (5 usages against 2). -/
theorem claim_C9_schema_usage_clamp :
    (∀ d : Document,
      0 ≤ schemaUsageTerm d ∧ schemaUsageTerm d ≤ 5
      ∧ schemaAndTypesRaw d ≤ 20
      ∧ (scoreSchemaAndTypes d).score = some (jsRound (schemaAndTypesRaw d))
      ∧ jsRound (schemaAndTypesRaw d) ≤ 20)
    ∧ operationsWithSchemas docMulti = 5
    ∧ totalOperations5 docMulti = 1
    ∧ 2 * totalOperations5 docMulti < operationsWithSchemas docMulti
    ∧ schemaUsageTerm docMulti = 5
    ∧ schemaAndTypesRaw docMulti = 5 := by
  refine ⟨?_, by decide, by decide, by decide, schemaUsageTerm_docMulti,
    schemaAndTypesRaw_docMulti⟩
  intro d
  obtain ⟨h1, h2⟩ := schemaUsageTerm_bounds d
  obtain ⟨h3, h4⟩ := schemaAndTypesRaw_bounds d
  exact ⟨h1, h2, h4, scoreSchemaAndTypes_score d,
    jsRound_le (n := 20) (by exact_mod_cast h4)⟩

/-- C10: an operation counts toward the per-operation security-override term
exactly when its `security` field is present — including an explicitly empty
`security: []`, which is truthy in JS — and such an operation earns the
proportional credit: the document whose single operation carries `security: []`
gets the full `(1/1) * 2 = 2` points (and nothing else), so its Security score
is 2. -/
theorem claim_C10_security_override :
    (∀ op : Operation, op.security = some [] → hasSecurityOverride op = true)
    ∧ (∀ op : Operation, hasSecurityOverride op = op.security.isSome)
    ∧ operationsWithSecurity docSecEmpty = 1
    ∧ securityRaw docSecEmpty = 2
    ∧ (scoreSecurity docSecEmpty).score = some 2 := by
  refine ⟨?_, fun op => rfl, by decide, securityRaw_docSecEmpty, ?_⟩
  · intro op h
    simp [hasSecurityOverride, h]
  · rw [scoreSecurity_score, securityRaw_docSecEmpty]
    norm_num [jsRound]

theorem claim_C10_security_override_witness :
    hasSecurityOverride { minimalGetOp with security := some [] } = true :=
  claim_C10_security_override.1 { minimalGetOp with security := some [] } rfl

/-! ## Properties of the weak-area sort -/

theorem mem_insertByPct {x c : CriteriaScore} {l : List CriteriaScore} :
    x ∈ insertByPct c l ↔ x = c ∨ x ∈ l := by
  induction l with
  | nil => simp [insertByPct]
  | cons d ds ih =>
    simp only [insertByPct]
    split <;> simp only [List.mem_cons, ih] <;> tauto

theorem length_insertByPct (c : CriteriaScore) (l : List CriteriaScore) :
    (insertByPct c l).length = l.length + 1 := by
  induction l with
  | nil => rfl
  | cons d ds ih =>
    simp only [insertByPct]
    split <;> simp [ih]

theorem sorted_insertByPct {c : CriteriaScore} {l : List CriteriaScore}
    (h : l.Pairwise (fun a b => pctKey a ≤ pctKey b)) :
    (insertByPct c l).Pairwise (fun a b => pctKey a ≤ pctKey b) := by
  induction l with
  | nil => simp [insertByPct]
  | cons d ds ih =>
    simp only [insertByPct]
    rcases List.pairwise_cons.1 h with ⟨hd, hds⟩
    split
    · rename_i hlt
      refine List.pairwise_cons.2 ⟨?_, ih hds⟩
      intro y hy
      rcases mem_insertByPct.1 hy with rfl | hmem
      · exact le_of_lt hlt
      · exact hd y hmem
    · rename_i hnlt
      refine List.pairwise_cons.2 ⟨?_, h⟩
      intro y hy
      rcases List.mem_cons.1 hy with rfl | hmem
      · exact le_of_not_lt hnlt
      · exact le_trans (le_of_not_lt hnlt) (hd y hmem)

theorem mem_sortByPct {x : CriteriaScore} {l : List CriteriaScore} :
    x ∈ sortByPct l ↔ x ∈ l := by
  induction l with
  | nil => simp [sortByPct]
  | cons c cs ih =>
    simp only [sortByPct, mem_insertByPct, ih, List.mem_cons]

theorem length_sortByPct (l : List CriteriaScore) :
    (sortByPct l).length = l.length := by
  induction l with
  | nil => rfl
  | cons c cs ih => simp [sortByPct, length_insertByPct, ih]

theorem sorted_sortByPct (l : List CriteriaScore) :
    (sortByPct l).Pairwise (fun a b => pctKey a ≤ pctKey b) := by
  induction l with
  | nil => simp [sortByPct]
  | cons c cs ih => exact sorted_insertByPct ih

/-- Shared shape of both weak-area selections (`take 3` of the stable
ascending sort of the sub-threshold criteria). -/
theorem weakTake_spec (k : ℤ) (cs : List CriteriaScore) :
    ((sortByPct (cs.filter (fun c => jsLt c.percentage k))).take 3).length ≤ 3
    ∧ ((sortByPct (cs.filter (fun c => jsLt c.percentage k))).take 3).Pairwise
        (fun a b => pctKey a ≤ pctKey b)
    ∧ (∀ c ∈ (sortByPct (cs.filter (fun c => jsLt c.percentage k))).take 3,
        c ∈ cs ∧ jsLt c.percentage k = true)
    ∧ ((∃ c ∈ cs, jsLt c.percentage k = true) →
        (sortByPct (cs.filter (fun c => jsLt c.percentage k))).take 3 ≠ [])
    ∧ ((∀ c ∈ cs, ¬ jsLt c.percentage k = true) →
        (sortByPct (cs.filter (fun c => jsLt c.percentage k))).take 3 = []) := by
  refine ⟨?_, ?_, ?_, ?_, ?_⟩
  · calc ((sortByPct _).take 3).length = min 3 (sortByPct _).length :=
        List.length_take 3 _
      _ ≤ 3 := min_le_left _ _
  · exact List.Pairwise.sublist (List.take_sublist 3 _) (sorted_sortByPct _)
  · intro c hc
    have hmem : c ∈ sortByPct (cs.filter (fun c => jsLt c.percentage k)) :=
      List.take_subset 3 _ hc
    have := mem_sortByPct.1 hmem
    exact ⟨(List.mem_filter.1 this).1, (List.mem_filter.1 this).2⟩
  · rintro ⟨c, hc, hp⟩
    have hfil : c ∈ cs.filter (fun c => jsLt c.percentage k) :=
      List.mem_filter.2 ⟨hc, hp⟩
    have hlen : 0 < (cs.filter (fun c => jsLt c.percentage k)).length :=
      List.length_pos.2 (List.ne_nil_of_mem hfil)
    have : 0 < ((sortByPct (cs.filter (fun c => jsLt c.percentage k))).take 3).length := by
      rw [List.length_take, length_sortByPct]
      omega
    exact List.ne_nil_of_length_pos this
  · intro hall
    have : cs.filter (fun c => jsLt c.percentage k) = [] :=
      List.filter_eq_nil_iff.2 hall
    rw [this]
    rfl

/-- C4 counterexample: seven criterion results with percentages
`[55,100,100,100,100,100,100]`. One percentage (55) is below 60, so the claim
demands a weak-area line; but the live reporter's Aggregator filters with
`percentage < 50`, so its overall feedback consists of the narrative line
only. (The older scorer variant of the function does use `< 60`.) -/
theorem claim_C4_counterexample :
    (∃ c ∈ borderVector, ∃ p : ℤ, c.percentage = some p ∧ p < 60)
    ∧ generateOverallFeedback (some 70) borderVector
        = ["Good job! Your API specification is well-structured with minor areas for improvement."]
    ∧ legacyGenerateOverallFeedback (some 70) borderVector
        = ["Your API specification is decent but has several areas that could be improved.",
           "Focus on improving: N1"] := by
  refine ⟨⟨mkCriterion ("N1") 55, by decide, 55, by decide, by decide⟩, by decide, by decide⟩

/-- C4 (amended): the live reporter's Aggregator uses the weak-area threshold
`percentage < 50` (not 60): if at least one criterion is below 50, the overall
feedback is exactly the narrative line plus one weak-area line naming the
lowest-percentage criteria — at most three, sorted ascending by percentage,
joined by `", "` — and if no criterion is below 50 no weak-area line is
produced. The older scorer file's variant behaves the same way with
threshold 60. On the spec's vector `[90,10,20,30,95,85,88]` both name exactly
the three lowest, in ascending order. -/
theorem claim_C4_weak_areas :
    (∀ (total : Option ℤ) (cs : List CriteriaScore),
      (∀ c ∈ cs, ¬ jsLt c.percentage 50 = true) →
        generateOverallFeedback total cs = [narrativeFeedback total])
    ∧ (∀ (total : Option ℤ) (cs : List CriteriaScore),
      (∃ c ∈ cs, jsLt c.percentage 50 = true) →
        generateOverallFeedback total cs
          = [narrativeFeedback total,
             "Focus on improving: "
               ++ String.intercalate ", " ((weakAreas cs).map (·.name))]
        ∧ (weakAreas cs).length ≤ 3
        ∧ (weakAreas cs).Pairwise (fun a b => pctKey a ≤ pctKey b)
        ∧ ∀ c ∈ weakAreas cs, c ∈ cs ∧ jsLt c.percentage 50 = true)
    ∧ (∀ (total : Option ℤ) (cs : List CriteriaScore),
      (∀ c ∈ cs, ¬ jsLt c.percentage 60 = true) →
        legacyGenerateOverallFeedback total cs = [legacyNarrativeFeedback total])
    ∧ (∀ (total : Option ℤ) (cs : List CriteriaScore),
      (∃ c ∈ cs, jsLt c.percentage 60 = true) →
        legacyGenerateOverallFeedback total cs
          = [legacyNarrativeFeedback total,
             "Focus on improving: "
               ++ String.intercalate ", " ((legacyWeakAreas cs).map (·.name))]
        ∧ (legacyWeakAreas cs).length ≤ 3
        ∧ (legacyWeakAreas cs).Pairwise (fun a b => pctKey a ≤ pctKey b)
        ∧ ∀ c ∈ legacyWeakAreas cs, c ∈ cs ∧ jsLt c.percentage 60 = true)
    ∧ generateOverallFeedback (some 59) weakVector
        = ["Your API specification needs significant improvements to meet best practices.",
           "Focus on improving: N2, N3, N4"]
    ∧ legacyGenerateOverallFeedback (some 59) weakVector
        = ["Your API specification requires major improvements across multiple areas.",
           "Focus on improving: N2, N3, N4"] := by
  refine ⟨?_, ?_, ?_, ?_, by decide, by decide⟩
  · intro total cs hall
    obtain ⟨-, -, -, -, hempty⟩ := weakTake_spec 50 cs
    rw [generateOverallFeedback, weakAreas, hempty hall]
    rfl
  · intro total cs hex
    obtain ⟨hlen, hsorted, hmem, hne, -⟩ := weakTake_spec 50 cs
    have hne2 : weakAreas cs ≠ [] := hne hex
    refine ⟨?_, hlen, hsorted, hmem⟩
    rw [generateOverallFeedback]
    rw [if_neg (by simpa [List.isEmpty_iff] using hne2)]
  · intro total cs hall
    obtain ⟨-, -, -, -, hempty⟩ := weakTake_spec 60 cs
    rw [legacyGenerateOverallFeedback, legacyWeakAreas, hempty hall]
    rfl
  · intro total cs hex
    obtain ⟨hlen, hsorted, hmem, hne, -⟩ := weakTake_spec 60 cs
    have hne2 : legacyWeakAreas cs ≠ [] := hne hex
    refine ⟨?_, hlen, hsorted, hmem⟩
    rw [legacyGenerateOverallFeedback]
    rw [if_neg (by simpa [List.isEmpty_iff] using hne2)]

theorem claim_C4_weak_areas_witness :
    generateOverallFeedback (some 59) weakVector
      = [narrativeFeedback (some 59),
         "Focus on improving: "
           ++ String.intercalate ", " ((weakAreas weakVector).map (·.name))]
    ∧ (weakAreas weakVector).length ≤ 3
    ∧ (weakAreas weakVector).Pairwise (fun a b => pctKey a ≤ pctKey b)
    ∧ ∀ c ∈ weakAreas weakVector, c ∈ weakVector ∧ jsLt c.percentage 50 = true :=
  claim_C4_weak_areas.2.1 (some 59) weakVector
    ⟨mkCriterion ("N2") 10, by decide, by decide⟩

end SpecScore
